import Mathlib

/-!
Verification of the Shopify app repository against its specification.

The development shallowly embeds the JavaScript route handlers and vendor
client helpers of the repository as executable Lean functions.  External
effects (HTTP calls to Cloudflare, the attribution backend, Smartlead and
Gmail, and the relational store) are modelled by explicit oracle arguments
and explicit state records, so every handler becomes a pure function from
its inputs and oracles to its result, its updated state and the number of
vendor calls it issued.
-/

set_option maxHeartbeats 1600000

namespace ShopifyApp

/-! ## JSON values and a model of the JavaScript JSON.parse builtin

The order-webhook handler calls JSON.parse on note-attribute values and
the campaign-assignment route stores serialized id lists.  We embed JSON
values as an inductive type; numbers keep their source lexeme since no
route ever computes with a parsed number.
-/

inductive Json where
  | null : Json
  | bool (b : Bool) : Json
  | num (raw : String) : Json
  | str (s : String) : Json
  | arr (xs : List Json) : Json
  | obj (fields : List (String × Json)) : Json
deriving Repr

mutual

/-- Structural equality test on JSON values (the semantics the JavaScript
Set constructor applies to the primitive values this app deduplicates). -/
def Json.beq : Json → Json → Bool
  | .null, .null => true
  | .bool a, .bool b => a == b
  | .num a, .num b => a == b
  | .str a, .str b => a == b
  | .arr xs, .arr ys => Json.beqList xs ys
  | .obj fs, .obj gs => Json.beqFields fs gs
  | _, _ => false

def Json.beqList : List Json → List Json → Bool
  | [], [] => true
  | x :: xs, y :: ys => Json.beq x y && Json.beqList xs ys
  | _, _ => false

def Json.beqFields : List (String × Json) → List (String × Json) → Bool
  | [], [] => true
  | (k, v) :: fs, (l, w) :: gs => k == l && Json.beq v w && Json.beqFields fs gs
  | _, _ => false

end

mutual

theorem Json.eq_of_beq : ∀ (a b : Json), Json.beq a b = true → a = b
  | .null, .null, _ => rfl
  | .bool a, .bool b, h => by
    simp only [Json.beq, beq_iff_eq] at h
    exact congrArg Json.bool h
  | .num a, .num b, h => by
    simp only [Json.beq, beq_iff_eq] at h
    exact congrArg Json.num h
  | .str a, .str b, h => by
    simp only [Json.beq, beq_iff_eq] at h
    exact congrArg Json.str h
  | .arr xs, .arr ys, h => congrArg Json.arr (Json.eqList_of_beqList xs ys h)
  | .obj fs, .obj gs, h => congrArg Json.obj (Json.eqFields_of_beqFields fs gs h)

theorem Json.eqList_of_beqList : ∀ (xs ys : List Json),
    Json.beqList xs ys = true → xs = ys
  | [], [], _ => rfl
  | x :: xs, y :: ys, h => by
    simp only [Json.beqList, Bool.and_eq_true] at h
    rw [Json.eq_of_beq x y h.1, Json.eqList_of_beqList xs ys h.2]

theorem Json.eqFields_of_beqFields : ∀ (fs gs : List (String × Json)),
    Json.beqFields fs gs = true → fs = gs
  | [], [], _ => rfl
  | (k, v) :: fs, (l, w) :: gs, h => by
    simp only [Json.beqFields, Bool.and_eq_true, beq_iff_eq] at h
    rw [h.1.1, Json.eq_of_beq v w h.1.2, Json.eqFields_of_beqFields fs gs h.2]

end

mutual

theorem Json.beq_refl : ∀ (a : Json), Json.beq a a = true
  | .null => rfl
  | .bool a => by simp [Json.beq]
  | .num a => by simp [Json.beq]
  | .str a => by simp [Json.beq]
  | .arr xs => Json.beqList_refl xs
  | .obj fs => Json.beqFields_refl fs

theorem Json.beqList_refl : ∀ (xs : List Json), Json.beqList xs xs = true
  | [] => rfl
  | x :: xs => by
    simp only [Json.beqList, Bool.and_eq_true]
    exact ⟨Json.beq_refl x, Json.beqList_refl xs⟩

theorem Json.beqFields_refl : ∀ (fs : List (String × Json)),
    Json.beqFields fs fs = true
  | [] => rfl
  | (k, v) :: fs => by
    simp only [Json.beqFields, Bool.and_eq_true]
    exact ⟨⟨beq_self_eq_true k, Json.beq_refl v⟩, Json.beqFields_refl fs⟩

end

instance : BEq Json := ⟨Json.beq⟩

instance : LawfulBEq Json where
  eq_of_beq h := Json.eq_of_beq _ _ h
  rfl := Json.beq_refl _

instance : DecidableEq Json := fun a b =>
  if h : Json.beq a b = true then isTrue (Json.eq_of_beq a b h)
  else isFalse (fun he => h (he ▸ Json.beq_refl a))

/-- JSON whitespace characters (space, tab, line feed, carriage return). -/
def isJsonWs (c : Char) : Bool :=
  c = ' ' || c = '\t' || c = '\n' || c = '\r'

/-- Drop leading JSON whitespace. -/
def skipWs : List Char → List Char
  | [] => []
  | c :: cs => if isJsonWs c then skipWs cs else c :: cs

def isHexDigit (c : Char) : Bool :=
  c.isDigit || ('a' ≤ c && c ≤ 'f') || ('A' ≤ c && c ≤ 'F')

def hexVal (c : Char) : Nat :=
  if c.isDigit then c.toNat - '0'.toNat
  else if 'a' ≤ c && c ≤ 'f' then c.toNat - 'a'.toNat + 10
  else c.toNat - 'A'.toNat + 10

/-- Parse exactly four hex digits into a code point. -/
def parseHex4 : List Char → Option (Nat × List Char)
  | a :: b :: c :: d :: rest =>
    if isHexDigit a && isHexDigit b && isHexDigit c && isHexDigit d then
      some (((hexVal a * 16 + hexVal b) * 16 + hexVal c) * 16 + hexVal d, rest)
    else none
  | _ => none

/-- Parse the remainder of a JSON string literal (after the opening quote). -/
def parseStringBody : Nat → List Char → Option (String × List Char)
  | 0, _ => none
  | _, [] => none
  | fuel + 1, c :: cs =>
    if c = '"' then some ("", cs)
    else if c = '\\' then
      match cs with
      | [] => none
      | e :: cs2 =>
        let decoded : Option (Char × List Char) :=
          if e = '"' then some ('"', cs2)
          else if e = '\\' then some ('\\', cs2)
          else if e = '/' then some ('/', cs2)
          else if e = 'b' then some ('\x08', cs2)
          else if e = 'f' then some ('\x0c', cs2)
          else if e = 'n' then some ('\n', cs2)
          else if e = 'r' then some ('\r', cs2)
          else if e = 't' then some ('\t', cs2)
          else if e = 'u' then
            match parseHex4 cs2 with
            | some (n, cs3) => some (Char.ofNat n, cs3)
            | none => none
          else none
        match decoded with
        | some (ch, rest) =>
          match parseStringBody fuel rest with
          | some (s, rest2) => some (⟨ch :: s.data⟩, rest2)
          | none => none
        | none => none
    else if c.toNat < 0x20 then none
    else
      match parseStringBody fuel cs with
      | some (s, rest) => some (⟨c :: s.data⟩, rest)
      | none => none

/-- Take a maximal run of decimal digits. -/
def takeDigits : List Char → List Char × List Char
  | [] => ([], [])
  | c :: cs =>
    if c.isDigit then
      let (ds, rest) := takeDigits cs
      (c :: ds, rest)
    else ([], c :: cs)

/-- Parse a JSON number, returning its source lexeme. -/
def parseNumber (cs : List Char) : Option (String × List Char) :=
  let (sign, cs1) :=
    match cs with
    | '-' :: rest => (['-'], rest)
    | _ => ([], cs)
  match cs1 with
  | [] => none
  | c :: _ =>
    if ¬ c.isDigit then none
    else
      let (intPart, cs2) :=
        match cs1 with
        | '0' :: rest => (['0'], rest)
        | _ => takeDigits cs1
      let (fracPart, cs3) :=
        match cs2 with
        | '.' :: rest =>
          let (ds, rest2) := takeDigits rest
          if ds = [] then ([], cs2) else ('.' :: ds, rest2)
        | _ => ([], cs2)
      let fracOk : Bool :=
        match cs2 with
        | '.' :: rest => !(takeDigits rest).1.isEmpty
        | _ => true
      let (expPart, cs4) :=
        match cs3 with
        | 'e' :: '+' :: rest =>
          let (ds, rest2) := takeDigits rest
          if ds = [] then ([], cs3) else ('e' :: '+' :: ds, rest2)
        | 'e' :: '-' :: rest =>
          let (ds, rest2) := takeDigits rest
          if ds = [] then ([], cs3) else ('e' :: '-' :: ds, rest2)
        | 'e' :: rest =>
          let (ds, rest2) := takeDigits rest
          if ds = [] then ([], cs3) else ('e' :: ds, rest2)
        | 'E' :: '+' :: rest =>
          let (ds, rest2) := takeDigits rest
          if ds = [] then ([], cs3) else ('E' :: '+' :: ds, rest2)
        | 'E' :: '-' :: rest =>
          let (ds, rest2) := takeDigits rest
          if ds = [] then ([], cs3) else ('E' :: '-' :: ds, rest2)
        | 'E' :: rest =>
          let (ds, rest2) := takeDigits rest
          if ds = [] then ([], cs3) else ('E' :: ds, rest2)
        | _ => ([], cs3)
      let expOk : Bool :=
        match cs3 with
        | 'e' :: _ => !expPart.isEmpty
        | 'E' :: _ => !expPart.isEmpty
        | _ => true
      if fracOk && expOk then
        some (⟨sign ++ intPart ++ fracPart ++ expPart⟩, cs4)
      else none

mutual

/-- Parse one JSON value from the head of the character stream. -/
def parseValue : Nat → List Char → Option (Json × List Char)
  | 0, _ => none
  | _ + 1, [] => none
  | fuel + 1, c :: cs =>
    if c = '"' then
      match parseStringBody (fuel + 1) cs with
      | some (s, rest) => some (.str s, rest)
      | none => none
    else if c = '[' then
      match skipWs cs with
      | ']' :: rest => some (.arr [], rest)
      | cs2 => parseArrayElems fuel cs2 []
    else if c = '{' then
      match skipWs cs with
      | '}' :: rest => some (.obj [], rest)
      | cs2 => parseObjectFields fuel cs2 []
    else if c = 't' then
      match cs with
      | 'r' :: 'u' :: 'e' :: rest => some (.bool true, rest)
      | _ => none
    else if c = 'f' then
      match cs with
      | 'a' :: 'l' :: 's' :: 'e' :: rest => some (.bool false, rest)
      | _ => none
    else if c = 'n' then
      match cs with
      | 'u' :: 'l' :: 'l' :: rest => some (.null, rest)
      | _ => none
    else
      match parseNumber (c :: cs) with
      | some (raw, rest) => some (.num raw, rest)
      | none => none

/-- Parse the elements of a JSON array (first element pending). -/
def parseArrayElems : Nat → List Char → List Json → Option (Json × List Char)
  | 0, _, _ => none
  | fuel + 1, cs, acc =>
    match parseValue fuel (skipWs cs) with
    | some (v, rest) =>
      match skipWs rest with
      | ',' :: rest2 => parseArrayElems fuel rest2 (v :: acc)
      | ']' :: rest2 => some (.arr (acc.reverse ++ [v]), rest2)
      | _ => none
    | none => none

/-- Parse the fields of a JSON object (first field pending). -/
def parseObjectFields : Nat → List Char → List (String × Json) →
    Option (Json × List Char)
  | 0, _, _ => none
  | fuel + 1, cs, acc =>
    match skipWs cs with
    | '"' :: cs2 =>
      match parseStringBody fuel cs2 with
      | some (k, rest) =>
        match skipWs rest with
        | ':' :: rest2 =>
          match parseValue fuel (skipWs rest2) with
          | some (v, rest3) =>
            match skipWs rest3 with
            | ',' :: rest4 => parseObjectFields fuel rest4 ((k, v) :: acc)
            | '}' :: rest4 => some (.obj (acc.reverse ++ [(k, v)]), rest4)
            | _ => none
          | none => none
        | _ => none
      | none => none
    | _ => none

end

/-- Model of the JavaScript JSON.parse builtin: parse a complete JSON
document, rejecting trailing garbage; failure models a thrown
SyntaxError. -/
def jsonParse (s : String) : Option Json :=
  match parseValue (s.length + 1) (skipWs s.data) with
  | some (v, rest) => if skipWs rest = [] then some v else none
  | none => none

/-! ## Order payload model (src/web/backend/routes/webhooks.js)

Shapes of the inbound Shopify order webhook payload, restricted to the
fields the handler reads.  Optional fields model absent / null JSON
fields; `sku` models `item.sku || ""`.
-/

/-- A name/value pair: a Shopify note attribute or line-item property. -/
structure NameValue where
  name : String
  value : String
deriving Repr, DecidableEq

structure LineItem where
  sku : Option String
  product_id : String
  variant_id : String
  title : String
  quantity : Nat
  price : String
  properties : List NameValue
deriving Repr, DecidableEq

structure OrderPayload where
  id : String
  total_price : String
  currency : String
  email : Option String
  customerEmail : Option String
  note_attributes : List NameValue
  line_items : List LineItem
deriving Repr, DecidableEq

/-- Deduplication keeping first occurrences, the order-preserving
semantics of the JavaScript `[...new Set(xs)]` idiom. -/
def dedupFirstAux (seen : List Json) : List Json → List Json
  | [] => []
  | x :: xs =>
    if x ∈ seen then dedupFirstAux seen xs
    else x :: dedupFirstAux (x :: seen) xs

def dedupFirst (l : List Json) : List Json := dedupFirstAux [] l

theorem mem_dedupFirstAux (x : Json) :
    ∀ (l seen : List Json), x ∈ dedupFirstAux seen l ↔ x ∈ l ∧ x ∉ seen := by
  intro l
  induction l with
  | nil => intro seen; simp [dedupFirstAux]
  | cons y ys ih =>
    intro seen
    by_cases hy : y ∈ seen
    · simp only [dedupFirstAux, if_pos hy, ih, List.mem_cons]
      constructor
      · rintro ⟨hx, hns⟩; exact ⟨Or.inr hx, hns⟩
      · rintro ⟨hx | hx, hns⟩
        · exact absurd (hx ▸ hy) hns
        · exact ⟨hx, hns⟩
    · simp only [dedupFirstAux, if_neg hy, List.mem_cons, ih, List.mem_cons]
      constructor
      · rintro (hx | ⟨hx, hns⟩)
        · exact ⟨Or.inl hx, hx ▸ hy⟩
        · exact ⟨Or.inr hx, fun hs => hns (Or.inr hs)⟩
      · rintro ⟨hx | hx, hns⟩
        · exact Or.inl hx
        · by_cases hxy : x = y
          · exact Or.inl hxy
          · exact Or.inr ⟨hx, fun hs => hs.elim (fun h => hxy h) hns⟩

theorem mem_dedupFirst (x : Json) (l : List Json) :
    x ∈ dedupFirst l ↔ x ∈ l := by
  simp [dedupFirst, mem_dedupFirstAux]

theorem nodup_dedupFirstAux :
    ∀ (l seen : List Json), (dedupFirstAux seen l).Nodup := by
  intro l
  induction l with
  | nil => intro seen; simp [dedupFirstAux]
  | cons y ys ih =>
    intro seen
    by_cases hy : y ∈ seen
    · simpa [dedupFirstAux, if_pos hy] using ih seen
    · simp only [dedupFirstAux, if_neg hy, List.nodup_cons]
      refine ⟨fun hmem => ?_, ih (y :: seen)⟩
      exact ((mem_dedupFirstAux y ys (y :: seen)).mp hmem).2 (List.mem_cons_self y seen)

theorem nodup_dedupFirst (l : List Json) : (dedupFirst l).Nodup :=
  nodup_dedupFirstAux l []

/-- Whitespace trimmed by the JavaScript String.prototype.trim. -/
def isJsWs (c : Char) : Bool :=
  c = ' ' || c = '\t' || c = '\n' || c = '\r' || c = '\x0b' || c = '\x0c' ||
    c.toNat = 0xa0 || c.toNat = 0xfeff || c.toNat = 0x2028 || c.toNat = 0x2029

/-- Model of the JavaScript String.prototype.trim. -/
def jsTrim (s : String) : String :=
  ⟨((s.data.dropWhile isJsWs).reverse.dropWhile isJsWs).reverse⟩

/-- Split a character list on commas (JavaScript `split(",")`, which
yields one piece even for the empty string). -/
def splitCommaAux : List Char → List Char → List String
  | [], acc => [⟨acc.reverse⟩]
  | c :: cs, acc =>
    if c = ',' then ⟨acc.reverse⟩ :: splitCommaAux cs []
    else splitCommaAux cs (c :: acc)

/-- Model of `value.split(",").map(s => s.trim()).filter(Boolean)`. -/
def splitCommaClean (v : String) : List String :=
  ((splitCommaAux v.data []).map jsTrim).filter (· ≠ "")

/-- The two accepted plural note-attribute key names. -/
def isPluralKey (name : String) : Bool :=
  name = "_oce_exposure_ids" || name = "oce_exposure_ids"

/-- The two accepted singular note-attribute key names. -/
def isSingularKey (name : String) : Bool :=
  name = "_oce_exposure_id" || name = "oce_exposure_id"

/-- Values contributed by one note attribute via the plural-key branch of
`extractExposureIds`: JSON.parse the value; spread it only when it parsed
to an array; on a parse failure fall back to comma-splitting. -/
def pluralContribution (attr : NameValue) : List Json :=
  if isPluralKey attr.name then
    match jsonParse attr.value with
    | some (Json.arr ids) => ids
    | some _ => []
    | none => (splitCommaClean attr.value).map Json.str
  else []

/-- Values contributed by one note attribute via the singular-key branch. -/
def singularContribution (attr : NameValue) : List Json :=
  if isSingularKey attr.name then [Json.str attr.value] else []

/-- Values contributed by the custom properties of one line item. -/
def itemContribution (item : LineItem) : List Json :=
  item.properties.flatMap fun prop =>
    if prop.name = "_oce_exposure_id" then [Json.str prop.value] else []

/-- Embedding of `extractExposureIds` (webhooks.js lines 111-141): scan
note attributes (each attribute through both key checks in order), then
every line item's properties, and deduplicate with first-wins order. -/
def extractExposureIds (orderData : OrderPayload) : List Json :=
  let fromAttrs := orderData.note_attributes.flatMap fun attr =>
    pluralContribution attr ++ singularContribution attr
  let fromItems := orderData.line_items.flatMap itemContribution
  dedupFirst (fromAttrs ++ fromItems)

/-- Modelled from the spec sentence of claim C7: identical to
`pluralContribution` except that a value is "parsed as a JSON array when
possible and otherwise split on commas", so a value parsing to a
non-array JSON document also falls back to comma-splitting. -/
def claimPluralContribution (attr : NameValue) : List Json :=
  if isPluralKey attr.name then
    match jsonParse attr.value with
    | some (Json.arr ids) => ids
    | _ => (splitCommaClean attr.value).map Json.str
  else []

/-- Modelled from the spec sentence of claim C7: the deduplicated union of
the three contribution sources with the claimed plural rule. -/
def claimExtractExposureIds (orderData : OrderPayload) : List Json :=
  dedupFirst
    ((orderData.note_attributes.flatMap fun attr =>
        claimPluralContribution attr ++ singularContribution attr) ++
      orderData.line_items.flatMap itemContribution)

/-- Counterexample payload for claim C7: the plural note-attribute value
"123" is valid JSON but not a JSON array. -/
def c7Payload : OrderPayload :=
  { id := "9001"
    total_price := "10.00"
    currency := "USD"
    email := none
    customerEmail := none
    note_attributes := [⟨"_oce_exposure_ids", "123"⟩]
    line_items := [] }

/-- Example payload from claim C7: plural JSON-array attribute plus a
line-item property. -/
def c7ExamplePayload : OrderPayload :=
  { id := "9002"
    total_price := "10.00"
    currency := "USD"
    email := none
    customerEmail := none
    note_attributes := [⟨"_oce_exposure_ids", "[\"a\",\"b\"]"⟩]
    line_items := [⟨none, "p1", "v1", "Shirt", 1, "10.00", [⟨"_oce_exposure_id", "c"⟩]⟩] }

/-- The same three exposure ids presented in a different input order, with
a duplicate across sources. -/
def c7ExamplePayloadReordered : OrderPayload :=
  { id := "9003"
    total_price := "10.00"
    currency := "USD"
    email := none
    customerEmail := none
    note_attributes := [⟨"oce_exposure_id", "c"⟩, ⟨"_oce_exposure_ids", "[\"b\",\"a\",\"c\"]"⟩]
    line_items := [⟨none, "p1", "v1", "Shirt", 1, "10.00", [⟨"_oce_exposure_id", "a"⟩]⟩] }

/-- Malformed-value payload from claim C7: "c" is neither JSON nor a
multi-piece comma list. -/
def c7MalformedPayload : OrderPayload :=
  { id := "9004"
    total_price := "10.00"
    currency := "USD"
    email := none
    customerEmail := none
    note_attributes := [⟨"_oce_exposure_ids", " c "⟩]
    line_items := [] }

/-! ## Order webhook handler (src/web/backend/routes/webhooks.js, handleOrderCreated)

The Prisma store is modelled by an explicit record holding the tenant's
settings row and the OrderSync table; the attribution-backend call
`oceApi.sendOrder` is an oracle argument whose error case models a
thrown exception.  The handler returns its JavaScript result object, the
updated store, and the number of backend calls it issued.
-/

/-- JavaScript truthiness of an optional string field: null, undefined
and the empty string are falsy. -/
def jsFalsyStr (o : Option String) : Bool := o.getD "" == ""

/-- Whether a JSON numeric lexeme denotes zero: true exactly when its
mantissa has no nonzero digit. -/
def numIsZero (raw : String) : Bool :=
  !((raw.data.takeWhile fun c => c ≠ 'e' && c ≠ 'E').any fun c => '1' ≤ c && c ≤ '9')

/-- JavaScript truthiness of a JSON value. -/
def jsonTruthy : Json → Bool
  | .null => false
  | .bool b => b
  | .num raw => !numIsZero raw
  | .str s => s ≠ ""
  | .arr _ => true
  | .obj _ => true

/-- Model of the JavaScript `v || null` idiom on an optional JSON field. -/
def jsOrNull (o : Option Json) : Option Json :=
  match o with
  | some j => if jsonTruthy j then some j else none
  | none => none

structure OceSettingsRow where
  shop : String
  apiKey : String
  webhookEnabled : Bool
deriving Repr, DecidableEq

structure OrderSyncRow where
  shop : String
  shopifyOrderId : String
  status : String
  totalAmount : String
  oceOrderId : Option Json
  commission : Option Json
  exposureIds : Option (List Json)
  errorMessage : Option String
deriving Repr, DecidableEq

/-- The store slice the order webhook touches: the tenant's OceSettings
row (if any) and the OrderSync table. -/
structure OrderDb where
  oceSettings : Option OceSettingsRow
  orderSync : List OrderSyncRow
deriving Repr, DecidableEq

/-- The attribution backend's response to sendOrder. -/
structure OceResult where
  order_id : Option Json
  commission : Option Json
deriving Repr, DecidableEq

/-- The handler's JavaScript result object. -/
structure HandlerResult where
  status : String
  reason : Option String := none
  oceOrderId : Option Json := none
  error : Option String := none
deriving Repr, DecidableEq

/-- Prisma findUnique on OrderSync by the (shop, shopifyOrderId) key. -/
def findSync (l : List OrderSyncRow) (shop oid : String) : Option OrderSyncRow :=
  l.find? fun r => r.shop == shop && r.shopifyOrderId == oid

/-- Prisma update on the row with the given (shop, shopifyOrderId) key. -/
def updateSync (l : List OrderSyncRow) (shop oid : String)
    (f : OrderSyncRow → OrderSyncRow) : List OrderSyncRow :=
  l.map fun r => if r.shop == shop && r.shopifyOrderId == oid then f r else r

/-- Prisma upsert of the "pending" sync record (webhooks.js lines 39-51). -/
def upsertPendingSync (l : List OrderSyncRow) (shop oid total : String) :
    List OrderSyncRow :=
  match findSync l shop oid with
  | some _ => updateSync l shop oid fun r =>
      { r with status := "pending", totalAmount := total }
  | none =>
    l ++ [{ shop := shop
            shopifyOrderId := oid
            status := "pending"
            totalAmount := total
            oceOrderId := none
            commission := none
            exposureIds := none
            errorMessage := none }]

/-- Embedding of `handleOrderCreated` (webhooks.js lines 15-105).  The
line-item payload assembled for the vendor request is absorbed by the
`sendOrder` oracle, which models the single `oceApi.sendOrder` HTTP
call; its error case is a thrown exception. -/
def handleOrderCreated (db : OrderDb) (shop : String) (orderData : OrderPayload)
    (sendOrder : Except String OceResult) : HandlerResult × OrderDb × Nat :=
  let shopifyOrderId := orderData.id
  match db.oceSettings with
  | none => ({ status := "skipped", reason := some "not_configured" }, db, 0)
  | some settings =>
    if settings.apiKey == "" || !settings.webhookEnabled then
      ({ status := "skipped", reason := some "not_configured" }, db, 0)
    else
      let existing := findSync db.orderSync shop shopifyOrderId
      if (existing.map fun e => e.status == "sent").getD false then
        ({ status := "skipped", reason := some "already_processed" }, db, 0)
      else
        let sync1 := upsertPendingSync db.orderSync shop shopifyOrderId
          orderData.total_price
        let exposureIds := extractExposureIds orderData
        match sendOrder with
        | .ok result =>
          let sync2 := updateSync sync1 shop shopifyOrderId fun r =>
            { r with
              status := "sent"
              oceOrderId := jsOrNull result.order_id
              exposureIds := some exposureIds
              commission := jsOrNull result.commission }
          ({ status := "sent", oceOrderId := result.order_id },
            { db with orderSync := sync2 }, 1)
        | .error msg =>
          let sync2 := updateSync sync1 shop shopifyOrderId fun r =>
            { r with status := "failed", errorMessage := some msg }
          ({ status := "failed", error := some msg },
            { db with orderSync := sync2 }, 1)

/-! ## Email settings and domain purchase
(src/web/backend/routes/email-settings.js, email-domains.js and
src/netlify/functions/cloudflare-domains.js)
-/

structure EmailSettingsRow where
  shop : String
  cloudflareAccountId : Option String
  cloudflareApiToken : Option String
  smartleadApiKey : Option String
  gmailAccessToken : Option String
  gmailRefreshToken : Option String
  whoisFirstName : Option String
  whoisLastName : Option String
  whoisAddress1 : Option String
  whoisCity : Option String
  whoisState : Option String
  whoisZip : Option String
  whoisCountry : Option String
  whoisPhone : Option String
  whoisEmail : Option String
deriving Repr, DecidableEq

/-- Model of the JavaScript Array.prototype.join. -/
def joinSep (sep : String) : List String → String
  | [] => ""
  | [x] => x
  | x :: xs => x ++ sep ++ joinSep sep xs

/-- The nine required WHOIS contact field names, in source order. -/
def requiredWhois : List String :=
  ["first_name", "last_name", "address", "city", "state", "zip", "country",
    "phone", "email"]

/-- The WHOIS contact object built by the web `purchaseDomain` route
(email-domains.js lines 67-78), field access by required-field name. -/
def whoisFieldWeb (s : EmailSettingsRow) : String → Option String
  | "first_name" => s.whoisFirstName
  | "last_name" => s.whoisLastName
  | "address" => s.whoisAddress1
  | "city" => s.whoisCity
  | "state" => s.whoisState
  | "zip" => s.whoisZip
  | "country" => s.whoisCountry
  | "phone" => s.whoisPhone
  | "email" => s.whoisEmail
  | _ => none

/-- `required.filter((f) => !contactInfo[f])` of the web variant. -/
def missingWhoisWeb (s : EmailSettingsRow) : List String :=
  requiredWhois.filter fun f => jsFalsyStr (whoisFieldWeb s f)

/-- Whether `getServiceClients` produces a Cloudflare client
(email-settings.js lines 114-119). -/
def hasCloudflareCreds (s : EmailSettingsRow) : Bool :=
  !jsFalsyStr s.cloudflareApiToken && !jsFalsyStr s.cloudflareAccountId

/-- The Prisma EmailDomain row created on purchase, restricted to the
fields the purchase route writes. -/
structure EmailDomainRow where
  shop : String
  domain : String
  cloudflareZoneId : Option String
  registrarStatus : String
  purchasedAt : Nat
  expiresAt : Nat
deriving Repr, DecidableEq

/-- The best-effort zone-id lookup after purchase: a thrown lookup error
is logged and swallowed, leaving a null zone id. -/
def zoneIdOf (zoneRes : Except String (Option String)) : Option String :=
  match zoneRes with
  | .ok z => z
  | .error _ => none

/-- Embedding of the web `purchaseDomain` route (email-domains.js lines
60-111).  `purchaseRes` is the Cloudflare registrar purchase call,
`zoneRes` the best-effort zone-id lookup; the Nat output counts the
Cloudflare HTTP calls issued.  `now` is Date.now in milliseconds. -/
def purchaseDomain (settings : Option EmailSettingsRow) (domain : String)
    (years : Nat) (now : Nat) (purchaseRes : Except String Json)
    (zoneRes : Except String (Option String)) :
    Except String EmailDomainRow × Nat :=
  match settings with
  | none => (.error "Email settings not configured. Set up credentials first.", 0)
  | some s =>
    if !hasCloudflareCreds s then
      (.error "Cloudflare credentials not configured", 0)
    else
      let missing := missingWhoisWeb s
      if !missing.isEmpty then
        (.error ("Missing WHOIS contact info: " ++ joinSep ", " missing ++
          ". Update Email Settings first."), 0)
      else
        match purchaseRes with
        | .error e => (.error e, 1)
        | .ok _ =>
          (.ok { shop := s.shop
                 domain := domain
                 cloudflareZoneId := zoneIdOf zoneRes
                 registrarStatus := "active"
                 purchasedAt := now
                 expiresAt := now + years * 365 * 24 * 60 * 60 * 1000 }, 2)

/-- The WHOIS block stored under email_settings.metadata.whois in the
serverless variant. -/
structure WhoisMeta where
  first_name : Option String
  last_name : Option String
  address : Option String
  city : Option String
  state : Option String
  zip : Option String
  country : Option String
  phone : Option String
  email : Option String
deriving Repr, DecidableEq

def whoisFieldMeta (w : WhoisMeta) : String → Option String
  | "first_name" => w.first_name
  | "last_name" => w.last_name
  | "address" => w.address
  | "city" => w.city
  | "state" => w.state
  | "zip" => w.zip
  | "country" => w.country
  | "phone" => w.phone
  | "email" => w.email
  | _ => none

/-- `required.filter((f) => !whois[f])` of `getWhoisContact`
(cloudflare-domains.js lines 288-289); an absent metadata block behaves
as the empty object. -/
def missingWhoisMeta (whois : Option WhoisMeta) : List String :=
  requiredWhois.filter fun f =>
    match whois with
    | some w => jsFalsyStr (whoisFieldMeta w f)
    | none => true

/-- Embedding of `getWhoisContact` (cloudflare-domains.js lines 279-306),
reduced to its validation outcome. -/
def getWhoisContact (whois : Option WhoisMeta) : Except String WhoisMeta :=
  let missing := missingWhoisMeta whois
  if !missing.isEmpty then
    .error ("Missing WHOIS contact info: " ++ joinSep ", " missing ++
      ". Update Email Settings first.")
  else
    .ok (whois.getD ⟨none, none, none, none, none, none, none, none, none⟩)

/-- Serverless email_domains row, restricted to the columns the handlers
write; unnamed columns keep their store defaults. -/
structure NetlifyDomainRow where
  id : String
  org_id : String
  domain : String
  cloudflare_zone_id : Option String
  status : String
  status_reason : Option String
  dns_configured : Bool
  mx_verified : Bool
  spf_verified : Bool
  dkim_verified : Bool
  dmarc_verified : Bool
  purchased_at : Nat
  expires_at : Nat
deriving Repr, DecidableEq

/-- Serverless Cloudflare credential pair from email_settings. -/
structure CfCreds where
  cloudflare_api_token : Option String
  cloudflare_account_id : Option String
deriving Repr, DecidableEq

def hasCfCreds (c : Option CfCreds) : Bool :=
  match c with
  | some creds =>
    !jsFalsyStr creds.cloudflare_api_token && !jsFalsyStr creds.cloudflare_account_id
  | none => false

/-- Embedding of the serverless `handlePurchase`
(cloudflare-domains.js lines 349-384).  `domainArg` is `body.domain`
(None models an absent/falsy field), `years` defaults to 1 at the call
site; the Nat counts Cloudflare HTTP calls. -/
def handlePurchase (creds : Option CfCreds) (whois : Option WhoisMeta)
    (orgId : String) (rowId : String) (domainArg : Option String) (years : Nat)
    (now : Nat) (purchaseRes : Except String Json)
    (zoneRes : Except String (Option String)) :
    Except String NetlifyDomainRow × Nat :=
  if jsFalsyStr domainArg then (.error "Domain name is required", 0)
  else if !hasCfCreds creds then
    (.error "Cloudflare credentials not configured. Update Email Settings first.", 0)
  else
    match getWhoisContact whois with
    | .error e => (.error e, 0)
    | .ok _ =>
      match purchaseRes with
      | .error e => (.error e, 1)
      | .ok _ =>
        (.ok { id := rowId
               org_id := orgId
               domain := domainArg.getD ""
               cloudflare_zone_id := zoneIdOf zoneRes
               status := "purchased"
               status_reason := none
               dns_configured := false
               mx_verified := false
               spf_verified := false
               dkim_verified := false
               dmarc_verified := false
               purchased_at := now
               expires_at := now + years * 365 * 24 * 60 * 60 * 1000 }, 2)

/-! ## Credential masking (src/web/backend/routes/email-settings.js, maskToken) -/

/-- The fixed mask character (U+2022 bullet). -/
def maskChar : Char := '•'

/-- Embedding of `maskToken` (email-settings.js lines 128-132).  The
JavaScript slice(0, 6)/slice(-4) calls are modelled on the character
list. -/
def maskToken (token : String) : String :=
  if token = "" then ""
  else if token.length ≤ 12 then ⟨List.replicate token.length maskChar⟩
  else
    ⟨token.data.take 6⟩ ++ (⟨List.replicate 20 maskChar⟩ : String) ++
      ⟨token.data.drop (token.data.length - 4)⟩

/-! ## DNS verification (cloudflare-domains.js, verifyDnsRecords and handleVerifyDns) -/

/-- A Cloudflare DNS record as returned by the list-records API. -/
structure DnsRecord where
  type : String
  name : String
  content : String
deriving Repr, DecidableEq

/-- The four verification flags. -/
structure DnsStatus where
  mx : Bool
  spf : Bool
  dkim : Bool
  dmarc : Bool
deriving Repr, DecidableEq

/-- Whether the second character list starts with the first. -/
def startsWithChars : List Char → List Char → Bool
  | [], _ => true
  | _ :: _, [] => false
  | p :: ps, c :: cs => p == c && startsWithChars ps cs

/-- Whether a character list occurs inside another. -/
def infixChars (pat : List Char) : List Char → Bool
  | [] => pat.isEmpty
  | c :: cs => startsWithChars pat (c :: cs) || infixChars pat cs

/-- The JavaScript String.prototype.includes test. -/
def strContains (s pat : String) : Bool := infixChars pat.data s.data

/-- The JavaScript String.prototype.startsWith test. -/
def strStartsWith (s pre : String) : Bool := startsWithChars pre.data s.data

/-- One iteration of the record scan in `verifyDnsRecords`
(cloudflare-domains.js lines 219-232). -/
def verifyStep (domain : String) (st : DnsStatus) (r : DnsRecord) : DnsStatus :=
  let st := if r.type == "MX" && r.name == domain then { st with mx := true } else st
  let st :=
    if r.type == "TXT" && r.name == domain && strStartsWith r.content "v=spf1" then
      { st with spf := true }
    else st
  let st :=
    if (r.type == "TXT" || r.type == "CNAME") && strContains r.name "._domainkey." then
      { st with dkim := true }
    else st
  let st :=
    if r.type == "TXT" && r.name == ("_dmarc." ++ domain) &&
        strStartsWith r.content "v=DMARC1" then
      { st with dmarc := true }
    else st
  st

/-- Embedding of `CloudflareClient.verifyDnsRecords` (cloudflare-domains.js
lines 215-235): one scan over the zone's records with all four flags
starting false. -/
def verifyDnsRecords (records : List DnsRecord) (domain : String) : DnsStatus :=
  records.foldl (verifyStep domain) ⟨false, false, false, false⟩

/-- `status.mx && status.spf && status.dkim && status.dmarc`
(cloudflare-domains.js line 470). -/
def allVerifiedOf (st : DnsStatus) : Bool := st.mx && st.spf && st.dkim && st.dmarc

/-- `allVerified ? "active" : "dns_pending"` (cloudflare-domains.js
line 471). -/
def domainStatusOf (st : DnsStatus) : String :=
  if allVerifiedOf st then "active" else "dns_pending"

/-- The response body of `handleVerifyDns`. -/
structure VerifyDnsResponse where
  status : DnsStatus
  all_verified : Bool
  domain_status : String
deriving Repr, DecidableEq

/-- Embedding of `handleVerifyDns` (cloudflare-domains.js lines 454-492)
after the domain row has been loaded: the zone guard, the verification
scan, the status computation and the persisted row update. -/
def handleVerifyDns (row : NetlifyDomainRow) (records : List DnsRecord) :
    Except String (VerifyDnsResponse × NetlifyDomainRow) :=
  if (row.cloudflare_zone_id.map fun z => z == "").getD true then
    .error "Domain has no Cloudflare zone"
  else
    let status := verifyDnsRecords records row.domain
    let allVerified := allVerifiedOf status
    let newStatus := domainStatusOf status
    let updated :=
      { row with
        mx_verified := status.mx
        spf_verified := status.spf
        dkim_verified := status.dkim
        dmarc_verified := status.dmarc
        status := newStatus }
    .ok (⟨status, allVerified, newStatus⟩, updated)

/-! ## DNS provisioning (cloudflare-domains.js, provisionColdEmailDns and
handleProvisionDns) -/

structure MxEntry where
  content : String
  priority : Nat
deriving Repr, DecidableEq

structure DkimEntry where
  type : Option String
  name : String
  content : String
deriving Repr, DecidableEq

/-- A provider profile: MX host/priority pairs, an SPF include domain,
DKIM entries. -/
structure Provider where
  mxRecords : List MxEntry
  spfInclude : Option String
  dkimRecords : List DkimEntry
deriving Repr, DecidableEq

/-- The body of one createDnsRecord call. -/
structure DnsRecordReq where
  type : String
  name : String
  content : String
  priority : Option Nat
deriving Repr, DecidableEq

def mkMxReq (domain : String) (mx : MxEntry) : DnsRecordReq :=
  ⟨"MX", domain, mx.content, some mx.priority⟩

def mkSpfReq (domain includeDomain : String) : DnsRecordReq :=
  ⟨"TXT", domain, "v=spf1 include:" ++ includeDomain ++ " -all", none⟩

def mkDkimReq (d : DkimEntry) : DnsRecordReq :=
  ⟨if jsFalsyStr d.type then "TXT" else d.type.getD "", d.name, d.content, none⟩

def mkDmarcReq (domain : String) : DnsRecordReq :=
  ⟨"TXT", "_dmarc." ++ domain, "v=DMARC1; p=quarantine; rua=mailto:dmarc@" ++ domain,
    none⟩

/-- The `results` object of `provisionColdEmailDns`. -/
structure ProvisionResults where
  mx : List Json
  spf : Option Json
  dkim : List Json
  dmarc : Option Json
  errors : List String
deriving Repr, DecidableEq

/-- The MX creation loop (cloudflare-domains.js lines 157-169): each
record creation is independently try/caught; the oracle `create` maps
the call sequence number and request body to the vendor outcome.
Returns the created records, the error strings and the next call
number. -/
def runMx (create : Nat → DnsRecordReq → Except String Json) (domain : String) :
    Nat → List MxEntry → List Json × List String × Nat
  | i, [] => ([], [], i)
  | i, mx :: rest =>
    match create i (mkMxReq domain mx) with
    | .ok created =>
      let (rs, es, j) := runMx create domain (i + 1) rest
      (created :: rs, es, j)
    | .error msg =>
      let (rs, es, j) := runMx create domain (i + 1) rest
      (rs, ("MX " ++ mx.content ++ ": " ++ msg) :: es, j)

/-- The DKIM creation loop (cloudflare-domains.js lines 185-196). -/
def runDkim (create : Nat → DnsRecordReq → Except String Json) :
    Nat → List DkimEntry → List Json × List String × Nat
  | i, [] => ([], [], i)
  | i, d :: rest =>
    match create i (mkDkimReq d) with
    | .ok created =>
      let (rs, es, j) := runDkim create (i + 1) rest
      (created :: rs, es, j)
    | .error msg =>
      let (rs, es, j) := runDkim create (i + 1) rest
      (rs, ("DKIM " ++ d.name ++ ": " ++ msg) :: es, j)

/-- Embedding of `CloudflareClient.provisionColdEmailDns`
(cloudflare-domains.js lines 153-210): MX records, then the SPF TXT
record (when an include domain is configured), then DKIM entries, then
the DMARC TXT record, each independently try/caught with errors
accumulated in order. -/
def provisionColdEmailDns (create : Nat → DnsRecordReq → Except String Json)
    (domain : String) (provider : Provider) : ProvisionResults :=
  let (mxRecs, mxErrs, i1) := runMx create domain 0 provider.mxRecords
  let (spf, spfErrs, i2) :=
    if !jsFalsyStr provider.spfInclude then
      match create i1 (mkSpfReq domain (provider.spfInclude.getD "")) with
      | .ok r => (some r, [], i1 + 1)
      | .error m => (none, ["SPF: " ++ m], i1 + 1)
    else (none, [], i1)
  let (dkimRecs, dkimErrs, i3) := runDkim create i2 provider.dkimRecords
  let (dmarc, dmarcErrs) :=
    match create i3 (mkDmarcReq domain) with
    | .ok r => (some r, [])
    | .error m => (none, ["DMARC: " ++ m])
  ⟨mxRecs, spf, dkimRecs, dmarc, mxErrs ++ spfErrs ++ dkimErrs ++ dmarcErrs⟩

/-- The domain-row update performed by `handleProvisionDns` after
provisioning (cloudflare-domains.js lines 432-444). -/
def provisionUpdate (row : NetlifyDomainRow) (results : ProvisionResults) :
    NetlifyDomainRow :=
  { row with
    status := if results.errors.length == 0 then "dns_pending" else "failed"
    status_reason :=
      if results.errors.length > 0 then some (joinSep "; " results.errors)
      else none
    dns_configured := true
    mx_verified := results.mx.length > 0
    spf_verified := results.spf.isSome
    dmarc_verified := results.dmarc.isSome }

/-! ## Uninstall purge (src/web/server.js lines 296-315 and
src/unnamed/part_000 lines 186-201)

Rows are reduced to their tenant key plus an opaque payload; every
entity table is a row list and `deleteMany({ where: { shop } })` is a
filter.
-/

/-- A generic tenant-keyed row. -/
structure TRow where
  shop : String
  payload : Nat
deriving Repr, DecidableEq

/-- All entity tables of the data model, keyed by shop. -/
structure AppDb where
  oceSettings : List TRow
  emailSettings : List TRow
  emailDomain : List TRow
  emailAccount : List TRow
  outreachCampaign : List TRow
  emailConversation : List TRow
  orderSync : List TRow
  videoAsset : List TRow
  session : List TRow
deriving Repr, DecidableEq

/-- Prisma `deleteMany({ where: { shop } })`. -/
def deleteMany (shop : String) (t : List TRow) : List TRow :=
  t.filter fun r => r.shop ≠ shop

/-- Embedding of the app/uninstalled webhook body of the consolidated
Express server (src/web/server.js lines 303-312): deletes the rows of
all nine entity tables for the shop. -/
def uninstallServer (db : AppDb) (shop : String) : AppDb :=
  { db with
    emailConversation := deleteMany shop db.emailConversation
    emailAccount := deleteMany shop db.emailAccount
    emailDomain := deleteMany shop db.emailDomain
    outreachCampaign := deleteMany shop db.outreachCampaign
    emailSettings := deleteMany shop db.emailSettings
    oceSettings := deleteMany shop db.oceSettings
    orderSync := deleteMany shop db.orderSync
    videoAsset := deleteMany shop db.videoAsset
    session := deleteMany shop db.session }

/-- Embedding of the app/uninstalled webhook body of the OCE-only server
variant (src/unnamed/part_000 lines 194-197): deletes only OceSettings,
OrderSync, VideoAsset and Session rows for the shop. -/
def uninstallPart000 (db : AppDb) (shop : String) : AppDb :=
  { db with
    oceSettings := deleteMany shop db.oceSettings
    orderSync := deleteMany shop db.orderSync
    videoAsset := deleteMany shop db.videoAsset
    session := deleteMany shop db.session }

/-- Rows of one table belonging to a tenant (a full-table scan filtered
by the tenant key). -/
def rowsFor (shop : String) (t : List TRow) : List TRow :=
  t.filter fun r => r.shop = shop

/-! ## Gmail request with silent token refresh (src/unnamed/part_001,
GmailService.request and GmailService.refreshAccessToken) -/

/-- The mutable token state of a GmailService instance. -/
structure GmailState where
  accessToken : String
  refreshToken : Option String
deriving Repr, DecidableEq

/-- A fetch response: HTTP status plus parsed JSON body (None when the
body fails to parse). -/
structure HttpResp where
  status : Nat
  body : Option Json
deriving Repr, DecidableEq

/-- response.ok of the fetch API. -/
def respOk (r : HttpResp) : Bool := 200 ≤ r.status && r.status ≤ 299

/-- The token endpoint's response to the refresh exchange. -/
structure RefreshResp where
  ok : Bool
  access_token : Option String
  expires_in : Option Nat
  error_description : Option String
  error : Option String
deriving Repr, DecidableEq

/-- A thrown GmailApiError (src/unnamed/part_001 lines 388-395). -/
structure GmailApiError where
  message : String
  status : Nat
deriving Repr, DecidableEq

/-- First truthy string of the JavaScript `a || b || "unknown"` chain. -/
def firstTruthyStr (a b : Option String) (dflt : String) : String :=
  if !jsFalsyStr a then a.getD ""
  else if !jsFalsyStr b then b.getD ""
  else dflt

/-- Embedding of `GmailService.refreshAccessToken` (part_001 lines
275-302): one POST to the Google token endpoint; on success the new
access token is stored on the client state. -/
def refreshAccessToken (st : GmailState) (resp : RefreshResp) :
    Except GmailApiError (String × GmailState) :=
  if !resp.ok || jsFalsyStr resp.access_token then
    .error ⟨"Token refresh failed: " ++
      firstTruthyStr resp.error_description resp.error "unknown", 0⟩
  else
    let tok := resp.access_token.getD ""
    .ok (tok, { st with accessToken := tok })

/-- data?.error?.message of a Gmail error body. -/
def gmailErrMessage (body : Option Json) : Option String :=
  match body with
  | some (Json.obj fields) =>
    match fields.lookup "error" with
    | some (Json.obj errFields) =>
      match errFields.lookup "message" with
      | some (Json.str m) => some m
      | _ => none
    | _ => none
  | _ => none

/-- The terminal part of `GmailService.request` (part_001 lines 330-337):
parse the body and either return it or throw a typed error built from
`data?.error?.message || "HTTP <status>"`. -/
def finishGmailResp (r : HttpResp) : Except GmailApiError (Option Json) :=
  if respOk r then .ok r.body
  else
    .error ⟨"Gmail API error: " ++
      firstTruthyStr (gmailErrMessage r.body) none ("HTTP " ++ toString r.status),
      r.status⟩

/-- Embedding of `GmailService.request` (part_001 lines 304-338).  The
`fetch` oracle maps the attempt number and the bearer token attached to
that attempt to the response; `refreshResp` is the token endpoint's
response if the refresh exchange runs.  Returns the outcome, the final
client state, the number of Gmail fetches and the number of refresh
exchanges. -/
def gmailRequest (st : GmailState) (fetch : Nat → String → HttpResp)
    (refreshResp : RefreshResp) :
    Except GmailApiError (Option Json) × GmailState × Nat × Nat :=
  let r0 := fetch 0 st.accessToken
  if r0.status == 401 && !jsFalsyStr st.refreshToken then
    match refreshAccessToken st refreshResp with
    | .error e => (.error e, st, 1, 1)
    | .ok (_, st1) =>
      let r1 := fetch 1 st1.accessToken
      (finishGmailResp r1, st1, 2, 1)
  else (finishGmailResp r0, st, 1, 0)

/-! ## Campaign assignment (src/web/backend/routes/email-accounts.js,
assignToCampaign)

The `emailAccountIds` column stores `JSON.stringify` of a string array;
it is modelled as the array it serializes (None models SQL null, for
which the route substitutes the empty list).
-/

structure EmailAccountRow where
  shop : String
  emailAddress : String
  smartleadAccountId : Option String
deriving Repr, DecidableEq

structure OutreachCampaignRow where
  shop : String
  name : String
  smartleadCampaignId : Option String
  emailAccountIds : Option (List String)
deriving Repr, DecidableEq

/-- The id-list update at the heart of `assignToCampaign`
(email-accounts.js lines 169-179): parse the stored list (empty when the
column is null), append the account id only when absent, and write back
only in that case. -/
def assignIdsUpdate (campaign : OutreachCampaignRow) (accountId : String) :
    OutreachCampaignRow :=
  let existingIds := campaign.emailAccountIds.getD []
  if existingIds.contains accountId then campaign
  else { campaign with emailAccountIds := some (existingIds ++ [accountId]) }

/-- Embedding of `assignToCampaign` (email-accounts.js lines 149-182)
after tenant scoping: guards for a found/linked account and campaign,
the Smartlead add-email call as an oracle, then the id-list update.
Returns the stored campaign row. -/
def assignToCampaign (account : Option EmailAccountRow)
    (campaign : Option OutreachCampaignRow) (accountId : String)
    (slCall : Except String Unit) : Except String OutreachCampaignRow :=
  match account with
  | none => .error "Email account not found"
  | some acct =>
    if jsFalsyStr acct.smartleadAccountId then .error "Account not linked to Smartlead"
    else
      match campaign with
      | none => .error "Campaign not found"
      | some camp =>
        if jsFalsyStr camp.smartleadCampaignId then .error "Campaign not linked to Smartlead"
        else
          match slCall with
          | .error e => .error e
          | .ok _ => .ok (assignIdsUpdate camp accountId)

/-! ## Concrete fixtures used by witness theorems -/

def c1Settings : OceSettingsRow := ⟨"s1.myshopify.com", "oce-key-123", true⟩

def c1SentRow : OrderSyncRow :=
  ⟨"s1.myshopify.com", "1001", "sent", "10.00", some (Json.str "oce-1"),
    some (Json.num "5"), some [Json.str "a"], none⟩

def c1Db : OrderDb := ⟨some c1Settings, [c1SentRow]⟩

def c1FreshDb : OrderDb := ⟨some c1Settings, []⟩

def c1Order : OrderPayload := ⟨"1001", "10.00", "USD", none, none, [], []⟩

def c1Send : Except String OceResult :=
  .ok ⟨some (Json.str "oce-1"), some (Json.num "5")⟩

def c2Settings : EmailSettingsRow :=
  { shop := "s1.myshopify.com"
    cloudflareAccountId := some "acct1"
    cloudflareApiToken := some "cf-token"
    smartleadApiKey := none
    gmailAccessToken := none
    gmailRefreshToken := none
    whoisFirstName := some "Ada"
    whoisLastName := some "Lovelace"
    whoisAddress1 := some "1 Analytical Way"
    whoisCity := some "London"
    whoisState := some "LDN"
    whoisZip := some "E1"
    whoisCountry := some "GB"
    whoisPhone := none
    whoisEmail := some "" }

def c2Whois : WhoisMeta :=
  ⟨some "Ada", some "Lovelace", some "1 Analytical Way", some "London",
    some "LDN", some "E1", some "GB", none, some ""⟩

def c9Settings : EmailSettingsRow :=
  { c2Settings with
    whoisPhone := some "+442071234567"
    whoisEmail := some "ada@example.com" }

def c9Whois : WhoisMeta :=
  ⟨some "Ada", some "Lovelace", some "1 Analytical Way", some "London",
    some "LDN", some "E1", some "GB", some "+442071234567", some "ada@example.com"⟩

def c3Row : NetlifyDomainRow :=
  ⟨"d1", "org1", "acmeoutreach.com", some "z1", "purchased", none, true,
    false, false, false, false, 1700000000000, 1731536000000⟩

/-- A zone holding only an MX record that matches the domain. -/
def c3Records : List DnsRecord :=
  [⟨"MX", "acmeoutreach.com", "mx.zoho.com"⟩,
    ⟨"A", "acmeoutreach.com", "203.0.113.7"⟩]

/-- A creation oracle that fails the second MX call and the SPF call. -/
def c4create : Nat → DnsRecordReq → Except String Json :=
  fun i _ =>
    if i == 1 then .error "boom1"
    else if i == 3 then .error "boom2"
    else .ok (Json.str ("rec" ++ toString i))

def c4Provider : Provider :=
  ⟨[⟨"mx.zoho.com", 10⟩, ⟨"mx2.zoho.com", 20⟩, ⟨"mx3.zoho.com", 50⟩],
    some "zoho.com", []⟩

def c4Row : NetlifyDomainRow :=
  ⟨"d2", "org1", "acme.com", some "z2", "purchased", none, false,
    false, false, false, false, 1700000000000, 1731536000000⟩

def c6Db : AppDb :=
  ⟨[], [⟨"s1.myshopify.com", 0⟩], [], [], [], [], [], [], []⟩

def c8State : GmailState := ⟨"oldTok", some "refTok"⟩

/-- A Gmail endpoint that 401s the first attempt and accepts the retry
made with the rotated token. -/
def c8Fetch : Nat → String → HttpResp :=
  fun i tok =>
    if i == 0 then ⟨401, none⟩
    else if tok == "newTok" then ⟨200, some (Json.obj [("id", Json.str "m1")])⟩
    else ⟨500, none⟩

/-- A Gmail endpoint that 401s every attempt. -/
def c8FetchAlways401 : Nat → String → HttpResp := fun _ _ => ⟨401, none⟩

def c8RefreshOk : RefreshResp := ⟨true, some "newTok", some 3600, none, none⟩

def c8RefreshBad : RefreshResp := ⟨false, none, none, some "invalid_grant", none⟩

def c10Account : EmailAccountRow := ⟨"s1.myshopify.com", "john@acme.com", some "sl-9"⟩

def c10Campaign : OutreachCampaignRow :=
  ⟨"s1.myshopify.com", "Spring", some "sl-c1", some ["acc-1"]⟩

end ShopifyApp

namespace ShopifyApp

/-! ## Store lemmas for the order-sync table -/

theorem findSync_updateSync (l : List OrderSyncRow) (shop oid : String)
    (f : OrderSyncRow → OrderSyncRow)
    (hf : ∀ r, (f r).shop = r.shop ∧ (f r).shopifyOrderId = r.shopifyOrderId) :
    findSync (updateSync l shop oid f) shop oid = (findSync l shop oid).map f := by
  induction l with
  | nil => rfl
  | cons r rs ih =>
    simp only [updateSync, List.map_cons, findSync] at ih ⊢
    cases hk : (r.shop == shop && r.shopifyOrderId == oid) with
    | true =>
      have h1 : ((f r).shop == shop && (f r).shopifyOrderId == oid) = true := by
        rcases hf r with ⟨h2, h3⟩
        rw [h2, h3]
        exact hk
      simp [List.find?_cons, h1, hk]
    | false =>
      have hneg : ¬ ((r.shop == shop && r.shopifyOrderId == oid) = true) := by
        simp [hk]
      rw [if_neg Bool.false_ne_true]
      rw [@List.find?_cons_of_neg _ (fun x => x.shop == shop && x.shopifyOrderId == oid)
          r _ hneg,
        @List.find?_cons_of_neg _ (fun x => x.shop == shop && x.shopifyOrderId == oid)
          r _ hneg]
      exact ih

theorem findSync_upsertPendingSync (l : List OrderSyncRow) (shop oid total : String) :
    ∃ r, findSync (upsertPendingSync l shop oid total) shop oid = some r ∧
      r.status = "pending" := by
  unfold upsertPendingSync
  cases he : findSync l shop oid with
  | some e =>
    refine ⟨{ e with status := "pending", totalAmount := total }, ?_, rfl⟩
    rw [findSync_updateSync l shop oid
      (fun r => { r with status := "pending", totalAmount := total })
      (fun r => ⟨rfl, rfl⟩), he]
    rfl
  | none =>
    have key : findSync (l ++ [⟨shop, oid, "pending", total, none, none, none, none⟩])
        shop oid = some ⟨shop, oid, "pending", total, none, none, none, none⟩ := by
      unfold findSync at he ⊢
      rw [List.find?_append, he]
      simp [List.find?]
    exact ⟨_, key, rfl⟩

/-- A sent-status row short-circuits the handler to a skipped result
with no backend call and no store mutation. -/
theorem handleOrderCreated_skip_of_sent (db : OrderDb) (shop : String)
    (orderData : OrderPayload) (send : Except String OceResult)
    (s : OceSettingsRow) (row : OrderSyncRow)
    (hset : db.oceSettings = some s) (hkey : s.apiKey ≠ "")
    (hweb : s.webhookEnabled = true)
    (hrow : findSync db.orderSync shop orderData.id = some row)
    (hsent : row.status = "sent") :
    handleOrderCreated db shop orderData send =
      ({ status := "skipped", reason := some "already_processed" }, db, 0) := by
  have hc : (s.apiKey == "" || !s.webhookEnabled) = false := by
    simp [hkey, hweb]
  simp [handleOrderCreated, hset, hc, hrow, hsent]

/-- A first run that reports "sent" issued exactly one backend call and
left a sent-status row under the same key, with settings unchanged. -/
theorem handleOrderCreated_sent_shape (db : OrderDb) (shop : String)
    (orderData : OrderPayload) (send1 : Except String OceResult)
    (s : OceSettingsRow)
    (hset : db.oceSettings = some s) (hkey : s.apiKey ≠ "")
    (hweb : s.webhookEnabled = true)
    (hsent1 : (handleOrderCreated db shop orderData send1).1.status = "sent") :
    (handleOrderCreated db shop orderData send1).2.2 = 1 ∧
    (handleOrderCreated db shop orderData send1).2.1.oceSettings = some s ∧
    ∃ r, findSync (handleOrderCreated db shop orderData send1).2.1.orderSync
        shop orderData.id = some r ∧ r.status = "sent" := by
  have hc : (s.apiKey == "" || !s.webhookEnabled) = false := by
    simp [hkey, hweb]
  simp only [handleOrderCreated, hset, hc, Bool.false_eq_true, if_false] at hsent1 ⊢
  cases hb : ((findSync db.orderSync shop orderData.id).map
      fun e => e.status == "sent").getD false with
  | true =>
    rw [hb] at hsent1
    simp at hsent1
  | false =>
    rw [hb] at hsent1
    cases send1 with
    | error msg =>
      simp at hsent1
    | ok result =>
      refine ⟨rfl, rfl, ?_⟩
      obtain ⟨r0, hr0, _⟩ := findSync_upsertPendingSync db.orderSync shop
        orderData.id orderData.total_price
      have hfind := findSync_updateSync (upsertPendingSync db.orderSync shop orderData.id orderData.total_price) shop orderData.id (fun r => { r with status := "sent", oceOrderId := jsOrNull result.order_id, exposureIds := some (extractExposureIds orderData), commission := jsOrNull result.commission }) (fun r => ⟨rfl, rfl⟩)
      rw [hr0] at hfind
      exact ⟨_, hfind, rfl⟩

/-! ## Scan lemmas for DNS verification -/

theorem verifyStep_mx (domain : String) (st : DnsStatus) (r : DnsRecord) :
    (verifyStep domain st r).mx = (st.mx || (r.type == "MX" && r.name == domain)) := by
  simp only [verifyStep, apply_ite DnsStatus.mx, ite_self]
  cases hc : (r.type == "MX" && r.name == domain) <;> simp [hc]

theorem verifyStep_spf (domain : String) (st : DnsStatus) (r : DnsRecord) :
    (verifyStep domain st r).spf =
      (st.spf || (r.type == "TXT" && r.name == domain &&
        strStartsWith r.content "v=spf1")) := by
  simp only [verifyStep, apply_ite DnsStatus.spf, ite_self]
  cases hc : (r.type == "TXT" && r.name == domain && strStartsWith r.content "v=spf1") <;>
    simp [hc]

theorem verifyStep_dkim (domain : String) (st : DnsStatus) (r : DnsRecord) :
    (verifyStep domain st r).dkim =
      (st.dkim || ((r.type == "TXT" || r.type == "CNAME") &&
        strContains r.name "._domainkey.")) := by
  simp only [verifyStep, apply_ite DnsStatus.dkim, ite_self]
  cases hc : ((r.type == "TXT" || r.type == "CNAME") &&
      strContains r.name "._domainkey.") <;>
    simp [hc]

theorem verifyStep_dmarc (domain : String) (st : DnsStatus) (r : DnsRecord) :
    (verifyStep domain st r).dmarc =
      (st.dmarc || (r.type == "TXT" && r.name == ("_dmarc." ++ domain) &&
        strStartsWith r.content "v=DMARC1")) := by
  simp only [verifyStep, apply_ite DnsStatus.dmarc, ite_self]
  cases hc : (r.type == "TXT" && r.name == ("_dmarc." ++ domain) &&
      strStartsWith r.content "v=DMARC1") <;>
    simp [hc]

theorem verify_foldl_mx (domain : String) :
    ∀ (l : List DnsRecord) (st : DnsStatus),
      (l.foldl (verifyStep domain) st).mx =
        (st.mx || l.any fun r => r.type == "MX" && r.name == domain) := by
  intro l
  induction l with
  | nil => intro st; simp
  | cons r rs ih =>
    intro st
    simp [List.foldl_cons, ih, verifyStep_mx, Bool.or_assoc]

theorem verify_foldl_spf (domain : String) :
    ∀ (l : List DnsRecord) (st : DnsStatus),
      (l.foldl (verifyStep domain) st).spf =
        (st.spf || l.any fun r => r.type == "TXT" && r.name == domain &&
          strStartsWith r.content "v=spf1") := by
  intro l
  induction l with
  | nil => intro st; simp
  | cons r rs ih =>
    intro st
    simp [List.foldl_cons, ih, verifyStep_spf, Bool.or_assoc]

theorem verify_foldl_dkim (domain : String) :
    ∀ (l : List DnsRecord) (st : DnsStatus),
      (l.foldl (verifyStep domain) st).dkim =
        (st.dkim || l.any fun r => (r.type == "TXT" || r.type == "CNAME") &&
          strContains r.name "._domainkey.") := by
  intro l
  induction l with
  | nil => intro st; simp
  | cons r rs ih =>
    intro st
    simp [List.foldl_cons, ih, verifyStep_dkim, Bool.or_assoc]

theorem verify_foldl_dmarc (domain : String) :
    ∀ (l : List DnsRecord) (st : DnsStatus),
      (l.foldl (verifyStep domain) st).dmarc =
        (st.dmarc || l.any fun r => r.type == "TXT" &&
          r.name == ("_dmarc." ++ domain) && strStartsWith r.content "v=DMARC1") := by
  intro l
  induction l with
  | nil => intro st; simp
  | cons r rs ih =>
    intro st
    simp [List.foldl_cons, ih, verifyStep_dmarc, Bool.or_assoc]

/-! ## Loop lemmas for DNS provisioning -/

theorem runMx_spec (create : Nat → DnsRecordReq → Except String Json)
    (domain : String) :
    ∀ (l : List MxEntry) (i : Nat),
      runMx create domain i l =
        ((l.enumFrom i).filterMap fun p => (create p.1 (mkMxReq domain p.2)).toOption,
         (l.enumFrom i).filterMap fun p =>
           match create p.1 (mkMxReq domain p.2) with
           | .ok _ => none
           | .error m => some ("MX " ++ p.2.content ++ ": " ++ m),
         i + l.length) := by
  intro l
  induction l with
  | nil => intro i; simp [runMx]
  | cons mx rest ih =>
    intro i
    cases hc : create i (mkMxReq domain mx) with
    | ok v =>
      simp [runMx, hc, ih, List.enumFrom, List.filterMap_cons, Except.toOption]
      omega
    | error m =>
      simp [runMx, hc, ih, List.enumFrom, List.filterMap_cons, Except.toOption]
      omega

theorem runDkim_spec (create : Nat → DnsRecordReq → Except String Json) :
    ∀ (l : List DkimEntry) (i : Nat),
      runDkim create i l =
        ((l.enumFrom i).filterMap fun p => (create p.1 (mkDkimReq p.2)).toOption,
         (l.enumFrom i).filterMap fun p =>
           match create p.1 (mkDkimReq p.2) with
           | .ok _ => none
           | .error m => some ("DKIM " ++ p.2.name ++ ": " ++ m),
         i + l.length) := by
  intro l
  induction l with
  | nil => intro i; simp [runDkim]
  | cons d rest ih =>
    intro i
    cases hc : create i (mkDkimReq d) with
    | ok v =>
      simp [runDkim, hc, ih, List.enumFrom, List.filterMap_cons, Except.toOption]
      omega
    | error m =>
      simp [runDkim, hc, ih, List.enumFrom, List.filterMap_cons, Except.toOption]
      omega

/-! ## Purge lemma for the uninstall webhook -/

theorem rowsFor_deleteMany (shop : String) (t : List TRow) :
    rowsFor shop (deleteMany shop t) = [] := by
  simp only [rowsFor, deleteMany, List.filter_filter]
  rw [List.filter_eq_nil_iff]
  intro a _
  simp

/-! ## Claim theorems -/

/-- C1.  Order-sync idempotency: with the tenant configured (API key set,
webhook enabled), a prior OrderSync row with status "sent" for
(shop, shopifyOrderId) makes the handler return
{status: "skipped", reason: "already_processed"} with zero backend calls
and the store — including the stored commission and order-id fields —
unchanged; and a first submission that returns "sent" makes exactly one
backend call while the second submission of the same order is skipped
with no further call and no mutation, so two submissions issue exactly
one backend call. -/
theorem order_sync_idempotency :
    (∀ (db : OrderDb) (shop : String) (orderData : OrderPayload)
        (send : Except String OceResult) (s : OceSettingsRow) (row : OrderSyncRow),
        db.oceSettings = some s → s.apiKey ≠ "" → s.webhookEnabled = true →
        findSync db.orderSync shop orderData.id = some row → row.status = "sent" →
        handleOrderCreated db shop orderData send =
          ({ status := "skipped", reason := some "already_processed" }, db, 0)) ∧
    (∀ (db : OrderDb) (shop : String) (orderData : OrderPayload)
        (send1 send2 : Except String OceResult) (s : OceSettingsRow),
        db.oceSettings = some s → s.apiKey ≠ "" → s.webhookEnabled = true →
        (handleOrderCreated db shop orderData send1).1.status = "sent" →
        (handleOrderCreated db shop orderData send1).2.2 = 1 ∧
        handleOrderCreated (handleOrderCreated db shop orderData send1).2.1 shop
            orderData send2 =
          ({ status := "skipped", reason := some "already_processed" },
            (handleOrderCreated db shop orderData send1).2.1, 0)) := by
  constructor
  · exact handleOrderCreated_skip_of_sent
  · intro db shop orderData send1 send2 s hset hkey hweb hs1
    obtain ⟨hn, hset1, r, hr, hrs⟩ :=
      handleOrderCreated_sent_shape db shop orderData send1 s hset hkey hweb hs1
    exact ⟨hn, handleOrderCreated_skip_of_sent _ shop orderData send2 s r hset1
      hkey hweb hr hrs⟩

/-- Witness for C1 at a concrete store, order and backend response. -/
theorem order_sync_idempotency_witness :
    handleOrderCreated c1Db "s1.myshopify.com" c1Order c1Send =
      ({ status := "skipped", reason := some "already_processed" }, c1Db, 0) ∧
    ((handleOrderCreated c1FreshDb "s1.myshopify.com" c1Order c1Send).2.2 = 1 ∧
      handleOrderCreated
          (handleOrderCreated c1FreshDb "s1.myshopify.com" c1Order c1Send).2.1
          "s1.myshopify.com" c1Order c1Send =
        ({ status := "skipped", reason := some "already_processed" },
          (handleOrderCreated c1FreshDb "s1.myshopify.com" c1Order c1Send).2.1, 0)) :=
  ⟨order_sync_idempotency.1 c1Db "s1.myshopify.com" c1Order c1Send c1Settings
      c1SentRow rfl (by decide) rfl (by decide) rfl,
    order_sync_idempotency.2 c1FreshDb "s1.myshopify.com" c1Order c1Send c1Send
      c1Settings rfl (by decide) rfl (by decide)⟩

/-- C2.  WHOIS completeness gate: in both purchase routes, whenever at
least one of the nine required WHOIS fields is empty or missing the
operation fails before any vendor HTTP call (call count 0) and the error
message names exactly the missing fields, joined in required-field
order. -/
theorem whois_completeness_gate :
    (∀ (s : EmailSettingsRow) (domain : String) (years now : Nat)
        (purchaseRes : Except String Json) (zoneRes : Except String (Option String)),
        hasCloudflareCreds s = true → missingWhoisWeb s ≠ [] →
        purchaseDomain (some s) domain years now purchaseRes zoneRes =
          (.error ("Missing WHOIS contact info: " ++ joinSep ", " (missingWhoisWeb s) ++
            ". Update Email Settings first."), 0)) ∧
    (∀ (creds : Option CfCreds) (whois : Option WhoisMeta)
        (orgId rowId domainStr : String) (years now : Nat)
        (purchaseRes : Except String Json) (zoneRes : Except String (Option String)),
        hasCfCreds creds = true → domainStr ≠ "" → missingWhoisMeta whois ≠ [] →
        handlePurchase creds whois orgId rowId (some domainStr) years now purchaseRes
            zoneRes =
          (.error ("Missing WHOIS contact info: " ++
            joinSep ", " (missingWhoisMeta whois) ++
            ". Update Email Settings first."), 0)) := by
  constructor
  · intro s domain years now purchaseRes zoneRes hcf hmiss
    have h1 : (!hasCloudflareCreds s) = false := by simp [hcf]
    have h2 : (missingWhoisWeb s).isEmpty = false := by
      cases hm : missingWhoisWeb s with
      | nil => exact absurd hm hmiss
      | cons a l => simp
    simp [purchaseDomain, h1, h2]
  · intro creds whois orgId rowId domainStr years now purchaseRes zoneRes hcf hdom hmiss
    have h0 : jsFalsyStr (some domainStr) = false := by
      simp [jsFalsyStr, hdom]
    have h1 : (!hasCfCreds creds) = false := by simp [hcf]
    have h2 : (missingWhoisMeta whois).isEmpty = false := by
      cases hm : missingWhoisMeta whois with
      | nil => exact absurd hm hmiss
      | cons a l => simp
    simp [handlePurchase, getWhoisContact, h0, h1, h2]

/-- Witness for C2: missing phone plus empty email yields a message
listing exactly "phone, email", in both route variants, with zero vendor
calls. -/
theorem whois_completeness_gate_witness :
    purchaseDomain (some c2Settings) "acmeoutreach.com" 1 1700000000000
        (.ok Json.null) (.ok none) =
      (.error ("Missing WHOIS contact info: " ++
        joinSep ", " (missingWhoisWeb c2Settings) ++
        ". Update Email Settings first."), 0) ∧
    missingWhoisWeb c2Settings = ["phone", "email"] ∧
    joinSep ", " (missingWhoisWeb c2Settings) = "phone, email" ∧
    handlePurchase (some ⟨some "cf-token", some "acct1"⟩) (some c2Whois) "org1"
        "row1" (some "acmeoutreach.com") 1 1700000000000 (.ok Json.null)
        (.ok none) =
      (.error ("Missing WHOIS contact info: " ++
        joinSep ", " (missingWhoisMeta (some c2Whois)) ++
        ". Update Email Settings first."), 0) :=
  ⟨whois_completeness_gate.1 c2Settings "acmeoutreach.com" 1 1700000000000
      (.ok Json.null) (.ok none) (by decide) (by decide),
    by decide, by decide,
    whois_completeness_gate.2 (some ⟨some "cf-token", some "acct1"⟩) (some c2Whois)
      "org1" "row1" "acmeoutreach.com" 1 1700000000000 (.ok Json.null) (.ok none)
      (by decide) (by decide) (by decide)⟩

/-- C3.  DNS verification: each of the four flags computed by the single
record scan is true exactly when some record satisfies its independent
condition; all_verified is the conjunction of the four flags; the
returned and persisted overall status is "active" exactly when all four
flags are true and "dns_pending" otherwise; and the handler persists all
four flags plus the overall status. -/
theorem dns_verification :
    (∀ (records : List DnsRecord) (domain : String),
        ((verifyDnsRecords records domain).mx = true ↔
          ∃ r ∈ records, r.type = "MX" ∧ r.name = domain) ∧
        ((verifyDnsRecords records domain).spf = true ↔
          ∃ r ∈ records, r.type = "TXT" ∧ r.name = domain ∧
            strStartsWith r.content "v=spf1" = true) ∧
        ((verifyDnsRecords records domain).dkim = true ↔
          ∃ r ∈ records, (r.type = "TXT" ∨ r.type = "CNAME") ∧
            strContains r.name "._domainkey." = true) ∧
        ((verifyDnsRecords records domain).dmarc = true ↔
          ∃ r ∈ records, r.type = "TXT" ∧ r.name = "_dmarc." ++ domain ∧
            strStartsWith r.content "v=DMARC1" = true)) ∧
    (∀ st : DnsStatus,
        allVerifiedOf st = (st.mx && st.spf && st.dkim && st.dmarc) ∧
        (domainStatusOf st = "active" ↔ allVerifiedOf st = true) ∧
        (allVerifiedOf st = false → domainStatusOf st = "dns_pending")) ∧
    (∀ (row : NetlifyDomainRow) (records : List DnsRecord) (z : String),
        row.cloudflare_zone_id = some z → z ≠ "" →
        handleVerifyDns row records =
          .ok (⟨verifyDnsRecords records row.domain,
              allVerifiedOf (verifyDnsRecords records row.domain),
              domainStatusOf (verifyDnsRecords records row.domain)⟩,
            { row with
              mx_verified := (verifyDnsRecords records row.domain).mx
              spf_verified := (verifyDnsRecords records row.domain).spf
              dkim_verified := (verifyDnsRecords records row.domain).dkim
              dmarc_verified := (verifyDnsRecords records row.domain).dmarc
              status := domainStatusOf (verifyDnsRecords records row.domain) })) := by
  refine ⟨?_, ?_, ?_⟩
  · intro records domain
    refine ⟨?_, ?_, ?_, ?_⟩
    · unfold verifyDnsRecords
      rw [verify_foldl_mx]
      simp [List.any_eq_true, Bool.and_eq_true]
    · unfold verifyDnsRecords
      rw [verify_foldl_spf]
      simp [List.any_eq_true, Bool.and_eq_true, and_assoc]
    · unfold verifyDnsRecords
      rw [verify_foldl_dkim]
      simp [List.any_eq_true, Bool.and_eq_true, Bool.or_eq_true]
    · unfold verifyDnsRecords
      rw [verify_foldl_dmarc]
      simp [List.any_eq_true, Bool.and_eq_true, and_assoc]
  · intro st
    refine ⟨rfl, ?_, ?_⟩ <;> cases hall : allVerifiedOf st <;>
      simp [domainStatusOf, hall]
  · intro row records z hz hzne
    have hzz : (((some z).map fun y => y == "").getD true) = false := by
      simp [hzne]
    simp only [handleVerifyDns, hz, hzz, Bool.false_eq_true, if_false]

/-- Witness for C3: a zone whose only matching record is an MX record
yields flags {mx: true, spf/dkim/dmarc: false}, all_verified false and
overall status "dns_pending", never "active". -/
theorem dns_verification_witness :
    handleVerifyDns c3Row c3Records =
      .ok (⟨verifyDnsRecords c3Records c3Row.domain,
          allVerifiedOf (verifyDnsRecords c3Records c3Row.domain),
          domainStatusOf (verifyDnsRecords c3Records c3Row.domain)⟩,
        { c3Row with
          mx_verified := (verifyDnsRecords c3Records c3Row.domain).mx
          spf_verified := (verifyDnsRecords c3Records c3Row.domain).spf
          dkim_verified := (verifyDnsRecords c3Records c3Row.domain).dkim
          dmarc_verified := (verifyDnsRecords c3Records c3Row.domain).dmarc
          status := domainStatusOf (verifyDnsRecords c3Records c3Row.domain) }) ∧
    verifyDnsRecords c3Records c3Row.domain = ⟨true, false, false, false⟩ ∧
    allVerifiedOf (verifyDnsRecords c3Records c3Row.domain) = false ∧
    domainStatusOf (verifyDnsRecords c3Records c3Row.domain) = "dns_pending" :=
  ⟨dns_verification.2.2 c3Row c3Records "z1" rfl (by decide),
    by decide, by decide, by decide⟩

/-- C4.  Partial DNS provisioning: every record creation is independently
try/caught, so each sub-result is exactly the successful subset of its
creation calls (no earlier failure aborts later creations) with one
error string per failure accumulated in order; afterwards the domain row
is set to "dns_pending" exactly when the error list is empty and to
"failed" with the joined error messages as status reason otherwise,
dns_configured is always set true, the MX/SPF/DMARC verified flags
record whether at least one corresponding record was created, and the
DKIM flag is left untouched. -/
theorem partial_dns_provisioning :
    (∀ (create : Nat → DnsRecordReq → Except String Json) (domain : String)
        (provider : Provider) (res : ProvisionResults),
        res = provisionColdEmailDns create domain provider →
        res.mx = (provider.mxRecords.enumFrom 0).filterMap
            (fun p => (create p.1 (mkMxReq domain p.2)).toOption) ∧
        res.spf = (if !jsFalsyStr provider.spfInclude then
            (create provider.mxRecords.length
              (mkSpfReq domain (provider.spfInclude.getD ""))).toOption
          else none) ∧
        res.dkim = (provider.dkimRecords.enumFrom
              (provider.mxRecords.length +
                (if !jsFalsyStr provider.spfInclude then 1 else 0))).filterMap
            (fun p => (create p.1 (mkDkimReq p.2)).toOption) ∧
        res.dmarc = (create (provider.mxRecords.length +
              (if !jsFalsyStr provider.spfInclude then 1 else 0) +
              provider.dkimRecords.length) (mkDmarcReq domain)).toOption ∧
        res.errors =
          ((provider.mxRecords.enumFrom 0).filterMap fun p =>
            match create p.1 (mkMxReq domain p.2) with
            | .ok _ => none
            | .error m => some ("MX " ++ p.2.content ++ ": " ++ m)) ++
          (if !jsFalsyStr provider.spfInclude then
            (match create provider.mxRecords.length
                (mkSpfReq domain (provider.spfInclude.getD "")) with
              | .ok _ => []
              | .error m => ["SPF: " ++ m])
          else []) ++
          ((provider.dkimRecords.enumFrom
              (provider.mxRecords.length +
                (if !jsFalsyStr provider.spfInclude then 1 else 0))).filterMap fun p =>
            match create p.1 (mkDkimReq p.2) with
            | .ok _ => none
            | .error m => some ("DKIM " ++ p.2.name ++ ": " ++ m)) ++
          (match create (provider.mxRecords.length +
              (if !jsFalsyStr provider.spfInclude then 1 else 0) +
              provider.dkimRecords.length) (mkDmarcReq domain) with
            | .ok _ => []
            | .error m => ["DMARC: " ++ m])) ∧
    (∀ (row : NetlifyDomainRow) (res : ProvisionResults),
        ((provisionUpdate row res).status = "dns_pending" ↔ res.errors = []) ∧
        (res.errors ≠ [] → (provisionUpdate row res).status = "failed" ∧
          (provisionUpdate row res).status_reason =
            some (joinSep "; " res.errors)) ∧
        (provisionUpdate row res).dns_configured = true ∧
        ((provisionUpdate row res).mx_verified = true ↔ res.mx ≠ []) ∧
        (provisionUpdate row res).spf_verified = res.spf.isSome ∧
        (provisionUpdate row res).dmarc_verified = res.dmarc.isSome ∧
        (provisionUpdate row res).dkim_verified = row.dkim_verified) := by
  constructor
  · intro create domain provider res hres
    subst hres
    simp only [provisionColdEmailDns, runMx_spec, runDkim_spec, Nat.zero_add]
    cases hspf : jsFalsyStr provider.spfInclude with
    | true =>
      cases hdm : create (provider.mxRecords.length + provider.dkimRecords.length)
          (mkDmarcReq domain) with
      | ok v => simp [hspf, hdm, Except.toOption]
      | error m => simp [hspf, hdm, Except.toOption]
    | false =>
      cases hsp : create (provider.mxRecords.length)
          (mkSpfReq domain (provider.spfInclude.getD "")) with
      | ok v =>
        cases hdm : create (provider.mxRecords.length + 1 +
            provider.dkimRecords.length) (mkDmarcReq domain) with
        | ok w => simp [hspf, hsp, hdm, Except.toOption]
        | error m => simp [hspf, hsp, hdm, Except.toOption]
      | error m =>
        cases hdm : create (provider.mxRecords.length + 1 +
            provider.dkimRecords.length) (mkDmarcReq domain) with
        | ok w => simp [hspf, hsp, hdm, Except.toOption]
        | error m2 => simp [hspf, hsp, hdm, Except.toOption]
  · intro row res
    refine ⟨?_, ?_, rfl, ?_, rfl, rfl, rfl⟩
    · cases herr : res.errors <;> simp [provisionUpdate, herr]
    · intro hne
      cases herr : res.errors with
      | nil => exact absurd herr hne
      | cons a l => simp [provisionUpdate, herr]
    · cases hmx : res.mx <;> simp [provisionUpdate, hmx]

/-- Witness for C4: with the second MX creation and the SPF creation
failing, provisioning still returns the two successful MX records,
collects exactly the two error strings, and the persisted row is
"failed" with the joined reason while mx_verified is still true. -/
theorem partial_dns_provisioning_witness :
    (provisionColdEmailDns c4create "acme.com" c4Provider).mx =
      ((c4Provider.mxRecords.enumFrom 0).filterMap
        (fun p => (c4create p.1 (mkMxReq "acme.com" p.2)).toOption)) ∧
    (provisionColdEmailDns c4create "acme.com" c4Provider).mx =
      [Json.str "rec0", Json.str "rec2"] ∧
    (provisionColdEmailDns c4create "acme.com" c4Provider).spf = none ∧
    (provisionColdEmailDns c4create "acme.com" c4Provider).errors =
      ["MX mx2.zoho.com: boom1", "SPF: boom2"] ∧
    ((provisionUpdate c4Row (provisionColdEmailDns c4create "acme.com" c4Provider)).status
        = "failed" ∧
      (provisionUpdate c4Row
          (provisionColdEmailDns c4create "acme.com" c4Provider)).status_reason =
        some (joinSep "; "
          (provisionColdEmailDns c4create "acme.com" c4Provider).errors)) ∧
    (provisionUpdate c4Row
        (provisionColdEmailDns c4create "acme.com" c4Provider)).mx_verified = true :=
  ⟨(partial_dns_provisioning.1 c4create "acme.com" c4Provider _ rfl).1,
    by decide, by decide, by decide,
    (partial_dns_provisioning.2 c4Row
        (provisionColdEmailDns c4create "acme.com" c4Provider)).2.1 (by decide),
    by decide⟩

/-- C5 counterexample: the credential "•" has length 1 > 0 yet its masked
form equals the stored raw form, refuting the claim's final clause. -/
theorem credential_masking_counterexample :
    maskToken "•" = "•" ∧ ("•" : String).length > 0 := by
  constructor
  · decide
  · decide

/-- C5 amended.  Credential masking: a credential longer than 12
characters keeps its first 6 and last 4 characters with a run of 20 mask
characters between them; a nonempty credential of length at most 12 is
fully masked; and the masked form differs from the raw form for every
nonempty credential that does not itself contain the mask character
(an all-mask credential can collide with its own masked form). -/
theorem credential_masking_amended :
    (∀ t : String, t.length > 12 →
        (maskToken t).data = t.data.take 6 ++ List.replicate 20 maskChar ++
          t.data.drop (t.data.length - 4)) ∧
    (∀ t : String, 0 < t.length → t.length ≤ 12 →
        (maskToken t).data = List.replicate t.length maskChar) ∧
    (∀ t : String, 0 < t.length → maskChar ∉ t.data → maskToken t ≠ t) := by
  have hnonempty : ∀ t : String, 0 < t.length → t ≠ "" := by
    intro t h0 he
    rw [he] at h0
    simp [String.length] at h0
  refine ⟨?_, ?_, ?_⟩
  · intro t h
    have hne : t ≠ "" := hnonempty t (by omega)
    have h2 : ¬ (t.length ≤ 12) := by omega
    simp only [maskToken, if_neg hne, if_neg h2, String.data_append]
  · intro t h0 h12
    have hne : t ≠ "" := hnonempty t h0
    simp only [maskToken, if_neg hne, if_pos h12]
  · intro t h0 hmem heq
    have hne : t ≠ "" := hnonempty t h0
    by_cases h12 : t.length ≤ 12
    · have hmask : maskToken t = ⟨List.replicate t.length maskChar⟩ := by
        simp only [maskToken, if_neg hne, if_pos h12]
      have hdata : t.data = List.replicate t.length maskChar := by
        have h2 := congrArg String.data heq
        rw [hmask] at h2
        exact h2.symm
      apply hmem
      rw [hdata]
      exact List.mem_replicate.mpr ⟨by omega, rfl⟩
    · have hin : maskChar ∈ (maskToken t).data := by
        simp only [maskToken, if_neg hne, if_neg h12, String.data_append]
        exact List.mem_append.mpr (Or.inl (List.mem_append.mpr (Or.inr
          (List.mem_replicate.mpr ⟨by omega, rfl⟩))))
      rw [heq] at hin
      exact hmem hin

/-- Witness for C5 amended at concrete credentials. -/
theorem credential_masking_witness :
    (maskToken "abcdefghijklm").data =
      "abcdefghijklm".data.take 6 ++ List.replicate 20 maskChar ++
        "abcdefghijklm".data.drop ("abcdefghijklm".data.length - 4) ∧
    (maskToken "abc").data = List.replicate ("abc" : String).length maskChar ∧
    maskToken "tok" ≠ "tok" :=
  ⟨credential_masking_amended.1 "abcdefghijklm" (by decide),
    credential_masking_amended.2.1 "abc" (by decide) (by decide),
    credential_masking_amended.2.2 "tok" (by decide) (by decide)⟩

/-- C6 counterexample: after the uninstall webhook of the cited handler
(src/unnamed/part_000) fires, an EmailSettings row of the tenant is
still present, so not every entity scans to zero rows. -/
theorem uninstall_purge_counterexample :
    rowsFor "s1.myshopify.com"
        (uninstallPart000 c6Db "s1.myshopify.com").emailSettings =
      [⟨"s1.myshopify.com", 0⟩] := by
  decide

/-- C6 amended.  Uninstall purge: the consolidated Express server
handler (src/web/server.js) leaves zero rows for the tenant in every
entity table; the OCE-only variant (src/unnamed/part_000) purges only
the Settings, OrderSync, VideoAsset and Session tables and leaves the
EmailSettings, Domain, EmailAccount, Campaign and Conversation tables
untouched. -/
theorem uninstall_purge_amended :
    ∀ (db : AppDb) (shop : String),
      (rowsFor shop (uninstallServer db shop).oceSettings = [] ∧
        rowsFor shop (uninstallServer db shop).emailSettings = [] ∧
        rowsFor shop (uninstallServer db shop).emailDomain = [] ∧
        rowsFor shop (uninstallServer db shop).emailAccount = [] ∧
        rowsFor shop (uninstallServer db shop).outreachCampaign = [] ∧
        rowsFor shop (uninstallServer db shop).emailConversation = [] ∧
        rowsFor shop (uninstallServer db shop).orderSync = [] ∧
        rowsFor shop (uninstallServer db shop).videoAsset = [] ∧
        rowsFor shop (uninstallServer db shop).session = []) ∧
      (rowsFor shop (uninstallPart000 db shop).oceSettings = [] ∧
        rowsFor shop (uninstallPart000 db shop).orderSync = [] ∧
        rowsFor shop (uninstallPart000 db shop).videoAsset = [] ∧
        rowsFor shop (uninstallPart000 db shop).session = []) ∧
      ((uninstallPart000 db shop).emailSettings = db.emailSettings ∧
        (uninstallPart000 db shop).emailDomain = db.emailDomain ∧
        (uninstallPart000 db shop).emailAccount = db.emailAccount ∧
        (uninstallPart000 db shop).outreachCampaign = db.outreachCampaign ∧
        (uninstallPart000 db shop).emailConversation = db.emailConversation) := by
  intro db shop
  refine ⟨⟨?_, ?_, ?_, ?_, ?_, ?_, ?_, ?_, ?_⟩, ⟨?_, ?_, ?_, ?_⟩,
    ⟨rfl, rfl, rfl, rfl, rfl⟩⟩ <;>
    exact rowsFor_deleteMany shop _

/-- C7 counterexample: a plural note-attribute value "123" is valid JSON
but not a JSON array; the code contributes nothing for it, while the
claim's "otherwise split on commas" rule would contribute "123". -/
theorem exposure_extraction_counterexample :
    extractExposureIds c7Payload ≠ claimExtractExposureIds c7Payload ∧
    extractExposureIds c7Payload = [] ∧
    claimExtractExposureIds c7Payload = [Json.str "123"] := by
  refine ⟨?_, by decide, by decide⟩
  decide

/-- C7 amended.  Exposure-id extraction: the extracted list is exactly
the deduplicated (first-wins) union of (1) plural-key note-attribute
values parsed as JSON — array elements when the value parses to an
array, nothing when it parses to non-array JSON, and the comma-split
trimmed nonempty pieces when parsing fails — (2) singular-key
note-attribute values and (3) line-item properties named
"_oce_exposure_id"; the result never contains duplicates; the claim's
concrete example yields exactly the set {a, b, c} in either input order;
and a malformed single value degrades to the one-element list of its
trimmed raw string. -/
theorem exposure_extraction_amended :
    (∀ (p : OrderPayload) (x : Json),
        x ∈ extractExposureIds p ↔
          (∃ a ∈ p.note_attributes, x ∈ pluralContribution a) ∨
          (∃ a ∈ p.note_attributes, x ∈ singularContribution a) ∨
          (∃ i ∈ p.line_items, x ∈ itemContribution i)) ∧
    (∀ p : OrderPayload, (extractExposureIds p).Nodup) ∧
    (∀ x : Json, x ∈ extractExposureIds c7ExamplePayload ↔
        (x = Json.str "a" ∨ x = Json.str "b" ∨ x = Json.str "c")) ∧
    (∀ x : Json, x ∈ extractExposureIds c7ExamplePayloadReordered ↔
        (x = Json.str "a" ∨ x = Json.str "b" ∨ x = Json.str "c")) ∧
    extractExposureIds c7MalformedPayload = [Json.str "c"] := by
  refine ⟨?_, ?_, ?_, ?_, by decide⟩
  · intro p x
    simp only [extractExposureIds, mem_dedupFirst, List.mem_append, List.mem_flatMap]
    constructor
    · rintro (⟨a, ha, hx | hx⟩ | ⟨i, hi, hx⟩)
      · exact Or.inl ⟨a, ha, hx⟩
      · exact Or.inr (Or.inl ⟨a, ha, hx⟩)
      · exact Or.inr (Or.inr ⟨i, hi, hx⟩)
    · rintro (⟨a, ha, hx⟩ | ⟨a, ha, hx⟩ | ⟨i, hi, hx⟩)
      · exact Or.inl ⟨a, ha, Or.inl hx⟩
      · exact Or.inl ⟨a, ha, Or.inr hx⟩
      · exact Or.inr ⟨i, hi, hx⟩
  · intro p
    exact nodup_dedupFirst _
  · have h : extractExposureIds c7ExamplePayload
        = [Json.str "a", Json.str "b", Json.str "c"] := by decide
    intro x
    rw [h]
    simp
  · have h : extractExposureIds c7ExamplePayloadReordered
        = [Json.str "c", Json.str "b", Json.str "a"] := by decide
    intro x
    rw [h]
    simp
    tauto

/-- C8.  Gmail silent token refresh: a 401 on the first attempt with a
refresh token present triggers exactly one refresh exchange; if the
exchange fails, a typed error is raised after exactly one Gmail fetch
and one refresh, with the client state unchanged; if it succeeds, the
original request is retried exactly once with the new access token —
which is stored on the client state for the caller to persist — for a
total of two fetches and one refresh; and a 401 on the retried request
raises a typed error carrying that status instead of any further
retries. -/
theorem gmail_silent_refresh :
    ∀ (st : GmailState) (fetch : Nat → String → HttpResp) (refreshResp : RefreshResp),
      (fetch 0 st.accessToken).status = 401 →
      jsFalsyStr st.refreshToken = false →
      ((refreshResp.ok = false ∨ jsFalsyStr refreshResp.access_token = true) →
        gmailRequest st fetch refreshResp =
          (.error ⟨"Token refresh failed: " ++
              firstTruthyStr refreshResp.error_description refreshResp.error "unknown",
            0⟩, st, 1, 1)) ∧
      (∀ tok : String, refreshResp.ok = true → refreshResp.access_token = some tok →
        tok ≠ "" →
        gmailRequest st fetch refreshResp =
          (finishGmailResp (fetch 1 tok), { st with accessToken := tok }, 2, 1) ∧
        ((fetch 1 tok).status = 401 →
          gmailRequest st fetch refreshResp =
            (.error ⟨"Gmail API error: " ++
                firstTruthyStr (gmailErrMessage (fetch 1 tok).body) none
                  ("HTTP " ++ toString (fetch 1 tok).status),
              (fetch 1 tok).status⟩, { st with accessToken := tok }, 2, 1))) := by
  intro st fetch refreshResp h401 htok
  have hcond : ((fetch 0 st.accessToken).status == 401 && !jsFalsyStr st.refreshToken)
      = true := by
    simp [h401, htok]
  have hrt : ¬ (st.refreshToken.getD "" = "") := by
    simpa [jsFalsyStr] using htok
  constructor
  · intro hfail
    have hrf : (!refreshResp.ok || jsFalsyStr refreshResp.access_token) = true := by
      rcases hfail with h | h <;> simp [h]
    simp [gmailRequest, hcond, refreshAccessToken, hrf, h401, hrt, htok]
  · intro tok hok htk htkne
    have hrf : (!refreshResp.ok || jsFalsyStr refreshResp.access_token) = false := by
      simp [hok, htk, jsFalsyStr, htkne]
    have hmain : gmailRequest st fetch refreshResp =
        (finishGmailResp (fetch 1 tok), { st with accessToken := tok }, 2, 1) := by
      simp [gmailRequest, hcond, refreshAccessToken, hrf, htk, hok, jsFalsyStr,
        htkne, h401, hrt]
    refine ⟨hmain, ?_⟩
    intro h401b
    have hnok : respOk (fetch 1 tok) = false := by
      simp [respOk, h401b]
    rw [hmain]
    simp [finishGmailResp, hnok]

/-- Witness for C8: a concrete 401-then-retry exchange, a failed refresh,
and a 401 on the retried request. -/
theorem gmail_silent_refresh_witness :
    gmailRequest c8State c8Fetch c8RefreshOk =
      (finishGmailResp (c8Fetch 1 "newTok"),
        { c8State with accessToken := "newTok" }, 2, 1) ∧
    gmailRequest c8State c8Fetch c8RefreshBad =
      (.error ⟨"Token refresh failed: " ++
          firstTruthyStr c8RefreshBad.error_description c8RefreshBad.error "unknown",
        0⟩, c8State, 1, 1) ∧
    gmailRequest c8State c8FetchAlways401 c8RefreshOk =
      (.error ⟨"Gmail API error: " ++
          firstTruthyStr (gmailErrMessage (c8FetchAlways401 1 "newTok").body) none
            ("HTTP " ++ toString (c8FetchAlways401 1 "newTok").status),
        (c8FetchAlways401 1 "newTok").status⟩,
        { c8State with accessToken := "newTok" }, 2, 1) :=
  ⟨((gmail_silent_refresh c8State c8Fetch c8RefreshOk (by decide) (by decide)).2
      "newTok" rfl rfl (by decide)).1,
    (gmail_silent_refresh c8State c8Fetch c8RefreshBad (by decide) (by decide)).1
      (Or.inl rfl),
    ((gmail_silent_refresh c8State c8FetchAlways401 c8RefreshOk (by decide)
        (by decide)).2 "newTok" rfl rfl (by decide)).2 (by decide)⟩

/-- C9.  Domain expiry arithmetic: a successful purchase inserts a row
whose expiry timestamp is the purchase timestamp plus exactly
years * 365 * 24 * 60 * 60 * 1000 milliseconds — pure day arithmetic —
with registrar status "active" in the web route and "purchased" in the
serverless variant. -/
theorem domain_expiry_arithmetic :
    (∀ (s : EmailSettingsRow) (domain : String) (years now : Nat) (res : Json)
        (zoneRes : Except String (Option String)),
        hasCloudflareCreds s = true → missingWhoisWeb s = [] →
        purchaseDomain (some s) domain years now (.ok res) zoneRes =
          (.ok { shop := s.shop
                 domain := domain
                 cloudflareZoneId := zoneIdOf zoneRes
                 registrarStatus := "active"
                 purchasedAt := now
                 expiresAt := now + years * 365 * 24 * 60 * 60 * 1000 }, 2)) ∧
    (∀ (creds : Option CfCreds) (whois : Option WhoisMeta)
        (orgId rowId domainStr : String) (years now : Nat) (res : Json)
        (zoneRes : Except String (Option String)),
        hasCfCreds creds = true → domainStr ≠ "" → missingWhoisMeta whois = [] →
        handlePurchase creds whois orgId rowId (some domainStr) years now (.ok res)
            zoneRes =
          (.ok { id := rowId
                 org_id := orgId
                 domain := domainStr
                 cloudflare_zone_id := zoneIdOf zoneRes
                 status := "purchased"
                 status_reason := none
                 dns_configured := false
                 mx_verified := false
                 spf_verified := false
                 dkim_verified := false
                 dmarc_verified := false
                 purchased_at := now
                 expires_at := now + years * 365 * 24 * 60 * 60 * 1000 }, 2)) := by
  constructor
  · intro s domain years now res zoneRes hcf hmiss
    have h1 : (!hasCloudflareCreds s) = false := by simp [hcf]
    have h2 : (missingWhoisWeb s).isEmpty = true := by simp [hmiss]
    simp [purchaseDomain, h1, h2]
  · intro creds whois orgId rowId domainStr years now res zoneRes hcf hdom hmiss
    have h0 : jsFalsyStr (some domainStr) = false := by simp [jsFalsyStr, hdom]
    have h1 : (!hasCfCreds creds) = false := by simp [hcf]
    have h2 : (missingWhoisMeta whois).isEmpty = true := by simp [hmiss]
    simp [handlePurchase, getWhoisContact, h0, h1, h2]

/-- Witness for C9 with a two-year purchase at a concrete timestamp. -/
theorem domain_expiry_arithmetic_witness :
    purchaseDomain (some c9Settings) "acmeoutreach.com" 2 1700000000000
        (.ok Json.null) (.ok (some "z9")) =
      (.ok { shop := c9Settings.shop
             domain := "acmeoutreach.com"
             cloudflareZoneId := zoneIdOf (.ok (some "z9"))
             registrarStatus := "active"
             purchasedAt := 1700000000000
             expiresAt := 1700000000000 + 2 * 365 * 24 * 60 * 60 * 1000 }, 2) ∧
    handlePurchase (some ⟨some "cf-token", some "acct1"⟩) (some c9Whois) "org1"
        "row9" (some "acmeoutreach.com") 2 1700000000000 (.ok Json.null)
        (.ok (some "z9")) =
      (.ok { id := "row9"
             org_id := "org1"
             domain := "acmeoutreach.com"
             cloudflare_zone_id := zoneIdOf (.ok (some "z9"))
             status := "purchased"
             status_reason := none
             dns_configured := false
             mx_verified := false
             spf_verified := false
             dkim_verified := false
             dmarc_verified := false
             purchased_at := 1700000000000
             expires_at := 1700000000000 + 2 * 365 * 24 * 60 * 60 * 1000 }, 2) :=
  ⟨domain_expiry_arithmetic.1 c9Settings "acmeoutreach.com" 2 1700000000000
      Json.null (.ok (some "z9")) (by decide) (by decide),
    domain_expiry_arithmetic.2 (some ⟨some "cf-token", some "acct1"⟩) (some c9Whois)
      "org1" "row9" "acmeoutreach.com" 2 1700000000000 Json.null (.ok (some "z9"))
      (by decide) (by decide) (by decide)⟩

/-- C10.  Campaign assignment keeps the account-id list duplicate-free:
a successful assignToCampaign stores exactly the id-list update that
appends the account id only when it is absent; the update is idempotent,
appends precisely when the id is missing, leaves the row untouched when
it is present, and preserves duplicate-freeness of the stored list. -/
theorem campaign_assignment_dedup :
    (∀ (acct : EmailAccountRow) (camp : OutreachCampaignRow) (accountId : String)
        (slCall : Except String Unit) (camp1 : OutreachCampaignRow),
        assignToCampaign (some acct) (some camp) accountId slCall = .ok camp1 →
        camp1 = assignIdsUpdate camp accountId) ∧
    (∀ (camp : OutreachCampaignRow) (accountId : String),
        assignIdsUpdate (assignIdsUpdate camp accountId) accountId =
          assignIdsUpdate camp accountId) ∧
    (∀ (camp : OutreachCampaignRow) (accountId : String),
        (camp.emailAccountIds.getD []).contains accountId = false →
        (assignIdsUpdate camp accountId).emailAccountIds =
          some ((camp.emailAccountIds.getD []) ++ [accountId])) ∧
    (∀ (camp : OutreachCampaignRow) (accountId : String),
        (camp.emailAccountIds.getD []).contains accountId = true →
        assignIdsUpdate camp accountId = camp) ∧
    (∀ (camp : OutreachCampaignRow) (accountId : String),
        (camp.emailAccountIds.getD []).Nodup →
        ((assignIdsUpdate camp accountId).emailAccountIds.getD []).Nodup) := by
  refine ⟨?_, ?_, ?_, ?_, ?_⟩
  · intro acct camp aid sl camp1 h
    simp only [assignToCampaign] at h
    cases h1 : jsFalsyStr acct.smartleadAccountId <;> rw [h1] at h
    · cases h2 : jsFalsyStr camp.smartleadCampaignId <;> rw [h2] at h
      · cases sl with
        | error e => simp at h
        | ok u =>
          simp at h
          exact h.symm
      · simp at h
    · simp at h
  · intro camp aid
    by_cases hc : aid ∈ camp.emailAccountIds.getD []
    · simp [assignIdsUpdate, List.elem_eq_mem, hc]
    · simp [assignIdsUpdate, List.elem_eq_mem, hc]
  · intro camp aid hc
    have hc2 : aid ∉ camp.emailAccountIds.getD [] := by
      simpa [List.contains, List.elem_eq_mem] using hc
    simp [assignIdsUpdate, List.elem_eq_mem, hc2]
  · intro camp aid hc
    have hc2 : aid ∈ camp.emailAccountIds.getD [] := by
      simpa [List.contains, List.elem_eq_mem] using hc
    simp [assignIdsUpdate, List.elem_eq_mem, hc2]
  · intro camp aid hnd
    by_cases hc : aid ∈ camp.emailAccountIds.getD []
    · simpa [assignIdsUpdate, List.elem_eq_mem, hc] using hnd
    · simp [assignIdsUpdate, List.elem_eq_mem, hc, List.nodup_append, hnd,
        List.disjoint_singleton]

/-- Witness for C10: assigning a new account id appends it once and a
second assignment leaves the stored row unchanged. -/
theorem campaign_assignment_dedup_witness :
    (⟨"s1.myshopify.com", "Spring", some "sl-c1", some ["acc-1", "acc-2"]⟩ :
        OutreachCampaignRow) = assignIdsUpdate c10Campaign "acc-2" ∧
    assignIdsUpdate (assignIdsUpdate c10Campaign "acc-2") "acc-2" =
      assignIdsUpdate c10Campaign "acc-2" ∧
    (assignIdsUpdate c10Campaign "acc-2").emailAccountIds =
      some ((c10Campaign.emailAccountIds.getD []) ++ ["acc-2"]) ∧
    assignIdsUpdate c10Campaign "acc-1" = c10Campaign ∧
    ((assignIdsUpdate c10Campaign "acc-2").emailAccountIds.getD []).Nodup :=
  ⟨campaign_assignment_dedup.1 c10Account c10Campaign "acc-2" (.ok ())
      ⟨"s1.myshopify.com", "Spring", some "sl-c1", some ["acc-1", "acc-2"]⟩
      (by rfl),
    campaign_assignment_dedup.2.1 c10Campaign "acc-2",
    campaign_assignment_dedup.2.2.1 c10Campaign "acc-2" (by decide),
    campaign_assignment_dedup.2.2.2.1 c10Campaign "acc-1" (by decide),
    campaign_assignment_dedup.2.2.2.2 c10Campaign "acc-2" (by decide)⟩

end ShopifyApp
